import Mathlib

/-!
Verification of the Gopher2600 cycle engine against its specification.

The development embeds, as executable Lean definitions, the parts of the
repository that the claims concern:

* `src/hardware/tia/step.go` — the TIA color-clock step (`TIA.Step`);
* `src/hardware/vcs.go` — the per-CPU-cycle schedule (`cycleVCS`), the
  drain loop that runs while RDY is low, and `VCS.Step`;
* `src/hardware/riot/riot.go` — the RIOT step;
* the cartridge patcher (`patch.CartridgeMemory`);
* the hand-controller event handler (`HandController.Handle`).

Components of the repository whose source files are not part of the
snapshot (the phase clock, the HSYNC polycounter, the delay queue of the
`future` package, the TIA event handlers such as `newScanline`, the video
and audio sub-systems, the memory bus inboxes, the 6507 core, and the
cartridge mapper) are modelled from the specification; each such
definition carries a doc comment saying so.  Machine bytes are `Nat`
with explicit `% 256` / `% 65536` where overflow matters.
-/

namespace Gopher2600

/-- TIA and RIOT chip registers used by the embedding.  The real bus
addresses registers by name; the enumeration lists the registers the
modelled code paths distinguish, with `other` standing for the rest. -/
inductive Reg where
  | VSYNC | VBLANK | WSYNC | RSYNC | HMOVE
  | PF0 | PF1 | PF2
  | RESP0 | COLUP0 | HMP0 | NUSIZ0 | GRP0 | AUDC0 | CXCLR
  | INPT4 | INPT5 | SWCHA | TIM64T
  | other
deriving DecidableEq, Repr

/-- A pending chip write: register name and value (one byte). -/
structure ChipData where
  name : Reg
  value : Nat
deriving DecidableEq, Repr

/-- Modelled from the spec: the chip-side view of the memory bus
(`memory` package missing from src).  Each chip has an isolated inbox of
at most one pending CPU write; `ChipRead` consumes it.  The `serviced`
field is instrumentation recording each consumed write together with the
TIA video-cycle count at the moment of consumption. -/
structure ChipMem where
  inbox : Option ChipData
  serviced : List (ChipData × Nat)
deriving DecidableEq, Repr

/-- Delayed-event targets routed by the delay queue.  These are the
events scheduled in `src/hardware/tia/step.go` plus the ones the missing
`tia.go` / `video` files schedule (modelled from the spec). -/
inductive DelayTarget where
  | newScanline
  | rsyncReset
  | resetHSYNC
  | resetColorBurst
  | resetHBlank
  | hmoveLatchOn
  | pfCommit (r : Reg) (v : Nat)
  | resetSprite
deriving DecidableEq, Repr

/-- Two delay targets carry the same tag when they address the same
destination field; a new `Schedule` replaces a pending entry of the same
tag (spec §4.8: last-write-wins per target). -/
def DelayTarget.sameTag : DelayTarget → DelayTarget → Bool
  | .newScanline, .newScanline => true
  | .rsyncReset, .rsyncReset => true
  | .resetHSYNC, .resetHSYNC => true
  | .resetColorBurst, .resetColorBurst => true
  | .resetHBlank, .resetHBlank => true
  | .hmoveLatchOn, .hmoveLatchOn => true
  | .pfCommit r _, .pfCommit r2 _ => r == r2
  | .resetSprite, .resetSprite => true
  | _, _ => false

/-- Modelled from the spec: the delay queue of the missing `future`
package (§4.8).  A slot holds the remaining tick count and the target; a
slot fires after exactly N `tick` calls. -/
abbrev DelayQueue := List (Nat × DelayTarget)

/-- Modelled from the spec: scheduling replaces any pending entry with
the same target tag and appends the new entry (fires in insertion
order). -/
def DelayQueue.schedule (n : Nat) (t : DelayTarget) (q : DelayQueue) : DelayQueue :=
  (q.filter (fun e => !(DelayTarget.sameTag e.2 t))) ++ [(n, t)]

/-- Modelled from the spec: `tick` decrements every slot and fires the
slots that reach zero, returning the fired targets in insertion order
and the remaining queue. -/
def DelayQueue.tick (q : DelayQueue) : List DelayTarget × DelayQueue :=
  let dec := q.map (fun e => (e.1 - 1, e.2))
  ((dec.filter (fun e => e.1 == 0)).map (fun e => e.2),
   dec.filter (fun e => !(e.1 == 0)))

/-- Modelled from the spec: the TIA two-phase clock (`phaseclock`
package missing from src).  A color clock is one of four positions
(rising Φ1, falling Φ1, rising Φ2, falling Φ2); `Phi2` is true on the
rising edge of Φ2, once every four color clocks (57 counts × 4 clocks =
228 clocks per scanline). -/
abbrev PhaseClock := Nat

/-- Modelled from the spec: advance the phase clock one color clock. -/
def PhaseClock.tick (p : PhaseClock) : PhaseClock := (p + 1) % 4

/-- Modelled from the spec: true on the rising edge of Φ2. -/
def PhaseClock.Phi2 (p : PhaseClock) : Bool := p % 4 == 2

/-- Modelled from the spec: the video sub-system state (`video` package
missing from src).  Sprite positioning and registers are kept to the
extent the claims observe them; the per-pixel colour resolution is
abstracted as the stored `pixelColor` / `debugColor` pair returned by
`Video.Pixel`. -/
structure VideoState where
  position : Nat
  pf : Nat
  color0 : Nat
  hm0 : Nat
  nusiz0 : Nat
  grp0 : Nat
  pixelColor : Nat
  debugColor : Nat
deriving DecidableEq, Repr

/-- The color signal sent to the television: a palette index or the
VideoBlack sentinel. -/
inductive ColorSignal where
  | videoBlack
  | color (n : Nat)
deriving DecidableEq, Repr

/-- The VideoBlack sentinel of the television package. -/
def VideoBlack : ColorSignal := ColorSignal.videoBlack

/-- Per-color-clock television signal attributes (spec §6). -/
structure SignalAttributes where
  HSync : Bool
  HSyncSimple : Bool
  VSync : Bool
  CBurst : Bool
  VBlank : Bool
  Pixel : ColorSignal
  AltPixel : Nat
  AudioUpdate : Bool
  AudioData : Nat
deriving DecidableEq, Repr

/-- Error kinds of the `errors` package that the modelled code paths
produce or test for. -/
inductive Errno where
  | TVOutOfSpec
  | BadInputEventType
  | InputDeviceUnplugged
  | UnknownInputEvent
  | PatchError
deriving DecidableEq, Repr

/-- The TIA state observed by `src/hardware/tia/step.go`. -/
structure TIAState where
  mem : ChipMem
  videoCycles : Nat
  pclk : PhaseClock
  hsync : Nat
  delay : DelayQueue
  hblank : Bool
  hmoveLatch : Bool
  wsync : Bool
  hmoveCt : Nat
  rsyncEvent : Bool
  video : VideoState
  audio : Nat
  sig : SignalAttributes
deriving DecidableEq, Repr

/-- The latch delay used by the HSYNC decodes in step.go. -/
def hsyncDelay : Nat := 3

/-- Modelled from the spec: the delay before an HMOVE write sets the
HMOVE latch and charges the extra-clocks counter (`tia.go` missing from
src). -/
def delayHMOVELatch : Nat := 3

/-- Cycle constants of the `video` package (src/unnamed/part_007). -/
def delayResetSprite : Nat := 4

/-- Cycle constants of the `video` package (src/unnamed/part_007). -/
def delayResetSpriteDuringHBLANK : Nat := 2

/-- Cycle constants of the `video` package (src/unnamed/part_007). -/
def delayPlayfieldWrite : Nat := 5

/-- Schedule a delayed event on the TIA's delay queue. -/
def TIA.schedule (n : Nat) (t : DelayTarget) (s : TIAState) : TIAState :=
  {s with delay := DelayQueue.schedule n t s.delay}

/-- Modelled from the spec: the effect of a delay-queue slot firing
(the event handlers of the missing `tia.go` / `video` files).
`newScanline` releases WSYNC and restores HBLANK at the start of the
next scanline; `rsyncReset` does the same for an RSYNC-triggered
scanline; `resetHBlank` turns HBLANK off; `hmoveLatchOn` is the delayed
effect of an HMOVE write (latch set, extra-clocks counter charged). -/
def TIA.applyEvent (t : DelayTarget) (s : TIAState) : TIAState :=
  match t with
  | .newScanline => {s with wsync := false, hblank := true, sig.HSyncSimple := true}
  | .rsyncReset => {s with wsync := false, hblank := true, sig.HSyncSimple := true,
                            rsyncEvent := false}
  | .resetHSYNC => {s with sig.HSync := false, sig.CBurst := true}
  | .resetColorBurst => {s with sig.CBurst := false}
  | .resetHBlank => {s with hblank := false}
  | .hmoveLatchOn => {s with hmoveLatch := true, hmoveCt := 15}
  | .pfCommit _ v => {s with video.pf := v}
  | .resetSprite => {s with video.position := 0}

/-- Tick the delay queue and apply the fired events in insertion order
(step.go line `tia.Delay.Tick()`). -/
def TIA.delayTick (s : TIAState) : TIAState :=
  let r := DelayQueue.tick s.delay
  r.1.foldl (fun s t => TIA.applyEvent t s) {s with delay := r.2}

/-- Modelled from the spec: `ChipBus.ChipRead` consumes the pending CPU
write for this chip, if any (§4.1).  The consumed write is logged with
the current video-cycle count (instrumentation). -/
def TIA.chipRead (s : TIAState) : Bool × ChipData × TIAState :=
  match s.mem.inbox with
  | some d => (true, d, {s with mem := {inbox := none, serviced := s.mem.serviced ++ [(d, s.videoCycles)]}})
  | none => (false, ⟨Reg.other, 0⟩, s)

/-- Modelled from the spec: `TIA.UpdateTIA` of the missing `tia.go`.
Handles VSYNC, VBLANK, WSYNC, RSYNC and HMOVE writes and returns false
when the write has been consumed (§4.4): WSYNC asserts RDY low, RSYNC
immediately resets the HSYNC counter and schedules the television
new-scanline event, HMOVE schedules the delayed latch/charge effect. -/
def TIA.UpdateTIA (d : ChipData) (s : TIAState) : Bool × TIAState :=
  match d.name with
  | .VSYNC => (false, {s with sig.VSync := d.value / 2 % 2 == 1})
  | .VBLANK => (false, {s with sig.VBlank := d.value / 2 % 2 == 1})
  | .WSYNC => (false, {s with wsync := true})
  | .RSYNC => (false, TIA.schedule hsyncDelay .rsyncReset
      {s with hsync := 0, rsyncEvent := true})
  | .HMOVE => (false, TIA.schedule delayHMOVELatch .hmoveLatchOn s)
  | _ => (true, s)

/-- Modelled from the spec: `Video.UpdatePlayfield`.  PF0/PF1/PF2
writes are committed 5 color clocks later via the delay queue
(§4.5, constant `delayPlayfieldWrite` of src/unnamed/part_007). -/
def Video.UpdatePlayfield (d : ChipData) (s : TIAState) : Bool × TIAState :=
  match d.name with
  | .PF0 | .PF1 | .PF2 =>
      (false, TIA.schedule delayPlayfieldWrite (.pfCommit d.name d.value) s)
  | _ => (true, s)

/-- Modelled from the spec: `Video.UpdateSpritePositioning`.  RESxx
writes reset the sprite position counter after a delay of 2 color
clocks in HBLANK and 4 otherwise (§4.5, constants of
src/unnamed/part_007). -/
def Video.UpdateSpritePositioning (d : ChipData) (s : TIAState) : Bool × TIAState :=
  match d.name with
  | .RESP0 => (false, TIA.schedule
      (if s.hblank then delayResetSpriteDuringHBLANK else delayResetSprite) .resetSprite s)
  | _ => (true, s)

/-- Modelled from the spec: `Video.UpdateColor` (COLUPx writes). -/
def Video.UpdateColor (d : ChipData) (s : TIAState) : Bool × TIAState :=
  match d.name with
  | .COLUP0 => (false, {s with video.color0 := d.value})
  | _ => (true, s)

/-- Modelled from the spec: `Video.UpdateSpriteHMOVE` (HMxx value
writes). -/
def Video.UpdateSpriteHMOVE (d : ChipData) (s : TIAState) : Bool × TIAState :=
  match d.name with
  | .HMP0 => (false, {s with video.hm0 := d.value})
  | _ => (true, s)

/-- Modelled from the spec: `Video.UpdateSpriteVariations` (NUSIZx
writes). -/
def Video.UpdateSpriteVariations (d : ChipData) (s : TIAState) : Bool × TIAState :=
  match d.name with
  | .NUSIZ0 => (false, {s with video.nusiz0 := d.value})
  | _ => (true, s)

/-- Modelled from the spec: `Video.UpdateSpritePixels` (GRPx writes). -/
def Video.UpdateSpritePixels (d : ChipData) (s : TIAState) : Bool × TIAState :=
  match d.name with
  | .GRP0 => (false, {s with video.grp0 := d.value})
  | _ => (true, s)

/-- Modelled from the spec: `Audio.UpdateRegisters` (AUDxx writes). -/
def Audio.UpdateRegisters (d : ChipData) (s : TIAState) : Bool × TIAState :=
  match d.name with
  | .AUDC0 => (false, {s with audio := d.value})
  | _ => (true, s)

/-- Modelled from the spec: `Video.Tick` advances the sprite position
counter when the sprite is visible (not HBLANK) or an HMOVE extra clock
is active (§4.5). -/
def Video.TickSprites (motck isHmove : Bool) (hmoveCt : Nat) (v : VideoState) : VideoState :=
  if motck || (isHmove && !(hmoveCt == 255)) then
    {v with position := (v.position + 1) % 160}
  else v

/-- Modelled from the spec: `Video.Pixel` returns the resolved pixel
colour and the resolved debug colour (§4.5); the resolution itself is
abstracted as stored state. -/
def Video.Pixel (v : VideoState) : Nat × Nat := (v.pixelColor, v.debugColor)

/-- Modelled from the spec: `Audio.Mix` emits one sample per color
clock (§4.6). -/
def Audio.Mix (a : Nat) : Bool × Nat := (true, a)

/-- The HSYNC-counter section of `TIA.Step`
(src/hardware/tia/step.go lines 68–153): on the rising edge of Φ2 the
HSYNC counter ticks; decoded counter values trigger the scheduled
events of the horizontal state machine.  The counter itself is the
0..56 counter of the spec (the polycounter file is missing from
src). -/
def TIA.hsyncSection (s : TIAState) : TIAState :=
  if PhaseClock.Phi2 s.pclk then
    let s := {s with hsync := s.hsync + 1}
    if s.hsync == 57 then
      {s with hsync := 0, hmoveLatch := false}
    else if s.hsync == 56 then
      if !s.rsyncEvent then TIA.schedule hsyncDelay .newScanline s else s
    else if s.hsync == 4 then
      {s with sig.HSync := true}
    else if s.hsync == 8 then
      TIA.schedule hsyncDelay .resetHSYNC s
    else if s.hsync == 12 then
      TIA.schedule hsyncDelay .resetColorBurst s
    else if s.hsync == 16 then
      if !s.hmoveLatch then TIA.schedule hsyncDelay .resetHBlank s else s
    else if s.hsync == 18 then
      if s.hmoveLatch then TIA.schedule hsyncDelay .resetHBlank s else s
    else s
  else s

/-- The `tia.videoCycles++` statement of `TIA.Step`
(src/hardware/tia/step.go line 35). -/
def TIA.videoCyclesInc (t : TIAState) : TIAState := {t with videoCycles := t.videoCycles + 1}

/-- The phase-A memory service of `TIA.Step`
(src/hardware/tia/step.go lines 37–50): chip read, then `UpdateTIA` and
`UpdatePlayfield` until one of them consumes the write.  Returns the
still-unconsumed service flag, the read data and the state. -/
def TIA.serviceA (serviceMemory : Bool) (t : TIAState) : Bool × ChipData × TIAState :=
  let a := if serviceMemory then TIA.chipRead t else (false, ⟨Reg.other, 0⟩, t)
  let b1 := if a.1 then TIA.UpdateTIA a.2.1 a.2.2 else (a.1, a.2.2)
  let b2 := if b1.1 then Video.UpdatePlayfield a.2.1 b1.2 else (b1.1, b1.2)
  (b2.1, a.2.1, b2.2)

/-- The `tia.pclk.Tick()` statement of `TIA.Step`
(src/hardware/tia/step.go line 53). -/
def TIA.pclkTickStage (t : TIAState) : TIAState := {t with pclk := PhaseClock.tick t.pclk}

/-- The phase-B memory service of `TIA.Step`
(src/hardware/tia/step.go lines 164–169): sprite positioning and sprite
colour, after the clocks have ticked. -/
def TIA.serviceB (sm : Bool) (memoryData : ChipData) (t : TIAState) : Bool × TIAState :=
  let b3 := if sm then Video.UpdateSpritePositioning memoryData t else (sm, t)
  if b3.1 then Video.UpdateColor memoryData b3.2 else (b3.1, b3.2)

/-- The `tia.Video.Tick(...)` statement of `TIA.Step`
(src/hardware/tia/step.go lines 171–178); the extra HMOVE clock is the
rising Φ2 edge. -/
def TIA.spriteTickStage (t : TIAState) : TIAState :=
  {t with video := Video.TickSprites (!t.hblank) (PhaseClock.Phi2 t.pclk) t.hmoveCt t.video}

/-- The HMOVE extra-clocks counter update of `TIA.Step`
(src/hardware/tia/step.go lines 181–185): on the Φ2 phase, and only
when the counter is not 0xff, decrement it (8-bit arithmetic). -/
def TIA.hmoveCtStage (t : TIAState) : TIAState :=
  if PhaseClock.Phi2 t.pclk && !(t.hmoveCt == 255) then
    {t with hmoveCt := (t.hmoveCt + 255) % 256}
  else t

/-- `TIA.Step` up to and including the HMOVE counter update
(src/hardware/tia/step.go lines 33–185): memory service phase A, phase
clock tick, delay-queue tick, HSYNC section, memory service phase B,
sprite ticking and the HMOVE extra-clocks counter decrement.  Returns
the still-unconsumed service flag, the serviced data and the state. -/
def TIA.stepToVideo (serviceMemory : Bool) (tia : TIAState) : Bool × ChipData × TIAState :=
  let a := TIA.serviceA serviceMemory (TIA.videoCyclesInc tia)
  let b := TIA.serviceB a.1 a.2.1 (TIA.hsyncSection (TIA.delayTick (TIA.pclkTickStage a.2.2)))
  (b.1, a.2.1, TIA.hmoveCtStage (TIA.spriteTickStage b.2))

/-- The pixel-resolution stage of `TIA.Step`
(src/hardware/tia/step.go lines 186–197): the debug colour is always
sent on `AltPixel`; the `Pixel` is the VideoBlack sentinel while
`hblank` is set and the resolved colour otherwise. -/
def TIA.pixelStage (t : TIAState) : TIAState :=
  let px := Video.Pixel t.video
  let t2 := {t with sig.AltPixel := px.2}
  if t2.hblank then {t2 with sig.Pixel := ColorSignal.videoBlack}
  else {t2 with sig.Pixel := ColorSignal.color px.1}

/-- The phase-C memory service of `TIA.Step`
(src/hardware/tia/step.go lines 199–210). -/
def TIA.serviceC (sm : Bool) (memoryData : ChipData) (t : TIAState) : TIAState :=
  let c1 := if sm then Video.UpdateSpriteHMOVE memoryData t else (sm, t)
  let c2 := if c1.1 then Video.UpdateSpriteVariations memoryData c1.2 else (c1.1, c1.2)
  let c3 := if c2.1 then Video.UpdateSpritePixels memoryData c2.2 else (c2.1, c2.2)
  (if c3.1 then Audio.UpdateRegisters memoryData c3.2 else (c3.1, c3.2)).2

/-- The audio-mix copy of `TIA.Step`
(src/hardware/tia/step.go line 213). -/
def TIA.audioStage (t : TIAState) : TIAState :=
  let mix := Audio.Mix t.audio
  {t with sig.AudioUpdate := mix.1, sig.AudioData := mix.2}

/-- `TIA.Step` up to the point where the signal is handed to the
television (src/hardware/tia/step.go lines 33–213): `stepToVideo`, then
pixel resolution, memory service phase C and the audio mix. -/
def TIA.stepPreSignal (serviceMemory : Bool) (tia : TIAState) : TIAState :=
  let r := TIA.stepToVideo serviceMemory tia
  TIA.audioStage (TIA.serviceC r.1 r.2.1 (TIA.pixelStage r.2.2))

/-- `TIA.Step` (src/hardware/tia/step.go): one color clock.  The
television is passed as a function from the emitted signal to an
optional error.  Returns the new state, the RDY line (`!wsync`,
conceptually pin 3 of the 6507) and the error: a television error is
returned as-is unless it is `TVOutOfSpec`, which is swallowed and the
step completes normally (the `HSyncSimple` attribute is reset once the
signal has been sent). -/
def TIA.Step (tv : SignalAttributes → Option Errno) (serviceMemory : Bool)
    (tia : TIAState) : TIAState × Bool × Option Errno :=
  let tia := TIA.stepPreSignal serviceMemory tia
  match tv tia.sig with
  | some e =>
      if !(e == Errno.TVOutOfSpec) then (tia, !tia.wsync, some e)
      else ({tia with sig.HSyncSimple := false}, !tia.wsync, none)
  | none => ({tia with sig.HSyncSimple := false}, !tia.wsync, none)

/-- Modelled from the spec: `TIA.StepVideoCycle` of the older `tia.go`
called by src/hardware/vcs.go (the file itself is missing from src).
It advances the TIA one color clock without servicing chip memory —
memory servicing is done by the separate `ReadTIAMemory` — and returns
the RDY state.  The color-clock pipeline is the one of
src/hardware/tia/step.go; the television of the old API reports no
error to the stepper. -/
def TIA.StepVideoCycle (tia : TIAState) : TIAState × Bool :=
  let r := TIA.Step (fun _ => none) false tia
  (r.1, r.2.1)

/-- Modelled from the spec: `TIA.ReadTIAMemory` of the older `tia.go`
called by src/hardware/vcs.go (the file itself is missing from src).
It services the pending chip write, if any, through the same update
chain that `TIA.Step` uses when `serviceMemory` is set. -/
def TIA.ReadTIAMemory (tia : TIAState) : TIAState :=
  let a := TIA.chipRead tia
  let sm := a.1
  let d := a.2.1
  let tia := a.2.2
  if !sm then tia else
  let b1 := TIA.UpdateTIA d tia
  if !b1.1 then b1.2 else
  let b2 := Video.UpdatePlayfield d b1.2
  if !b2.1 then b2.2 else
  let b3 := Video.UpdateSpritePositioning d b2.2
  if !b3.1 then b3.2 else
  let b4 := Video.UpdateColor d b3.2
  if !b4.1 then b4.2 else
  let b5 := Video.UpdateSpriteHMOVE d b4.2
  if !b5.1 then b5.2 else
  let b6 := Video.UpdateSpriteVariations d b5.2
  if !b6.1 then b6.2 else
  let b7 := Video.UpdateSpritePixels d b6.2
  if !b7.1 then b7.2 else
  (Audio.UpdateRegisters d b7.2).2

/-- The RIOT state (src/hardware/riot/riot.go; the timer internals are
modelled from spec §4.7, the `timer` and `input` files being missing
from src).  `stepCount` is instrumentation counting `RIOT.Step`
calls. -/
structure RIOTState where
  inbox : Option ChipData
  timerValue : Nat
  timerInterval : Nat
  timerTicks : Nat
  timerExpired : Bool
  stepCount : Nat
deriving DecidableEq, Repr

/-- `RIOT.Update` (src/hardware/riot/riot.go): consume the most recent
CPU write to RIOT memory, if any.  The timer-register effect is
modelled from spec §4.7 (TIM64T selects the 64-cycle divisor). -/
def RIOT.Update (r : RIOTState) : RIOTState :=
  match r.inbox with
  | some d =>
      match d.name with
      | .TIM64T => {r with inbox := none, timerValue := d.value % 256,
                           timerInterval := 64, timerTicks := 0, timerExpired := false}
      | _ => {r with inbox := none}
  | none => r

/-- Modelled from the spec: `Timer.Step` (§4.7).  The timer decrements
once per interval; on underflow it switches to the per-cycle divisor
and sets the expired flag. -/
def Timer.Step (r : RIOTState) : RIOTState :=
  let t := r.timerTicks + 1
  if t < r.timerInterval then {r with timerTicks := t}
  else if r.timerValue == 0 then
    {r with timerTicks := 0, timerValue := 255, timerInterval := 1, timerExpired := true}
  else {r with timerTicks := 0, timerValue := r.timerValue - 1}

/-- `RIOT.Step` (src/hardware/riot/riot.go): service memory, then tick
the timer.  The input sub-system step is not modelled (no claim
observes it). -/
def RIOT.Step (r : RIOTState) : RIOTState :=
  let r := RIOT.Update r
  let r := Timer.Step r
  {r with stepCount := r.stepCount + 1}

/-- Modelled from the spec: `RIOT.ReadRIOTMemory` of the older RIOT API
called by src/hardware/vcs.go — it services the pending chip write. -/
def RIOT.ReadRIOTMemory (r : RIOTState) : RIOTState := RIOT.Update r

/-- 6507 register state (spec §3; the cpu package is missing from
src).  The VCS per-cycle callback never touches these. -/
structure CPURegisters where
  A : Nat
  X : Nat
  Y : Nat
  SP : Nat
  PC : Nat
  Status : Nat
deriving DecidableEq, Repr

/-- The VCS aggregate driven by `VCS.Step` (src/hardware/vcs.go).
`cpuCycles` is the local counter of `VCS.Step`; `videoCallbacks`
counts the `videoCycleCallback` invocations. -/
structure VCSState where
  regs : CPURegisters
  rdyFlg : Bool
  tia : TIAState
  riot : RIOTState
  cpuCycles : Nat
  videoCallbacks : Nat
deriving DecidableEq, Repr

/-- The `cpuCycles++` statement of `cycleVCS`. -/
def countCycle (v : VCSState) : VCSState := {v with cpuCycles := v.cpuCycles + 1}

/-- The `vcs.RIOT.ReadRIOTMemory()` statement of `cycleVCS`. -/
def riotReadPhase (v : VCSState) : VCSState := {v with riot := RIOT.ReadRIOTMemory v.riot}

/-- The `vcs.RIOT.Step()` statement of `cycleVCS`. -/
def riotStepPhase (v : VCSState) : VCSState := {v with riot := RIOT.Step v.riot}

/-- One `vcs.MC.RdyFlg = vcs.TIA.StepVideoCycle()` plus
`videoCycleCallback(r)` block of `cycleVCS` (the callback is modelled
as the `videoCallbacks` counter). -/
def cycleClock (v : VCSState) : VCSState :=
  let r := TIA.StepVideoCycle v.tia
  {v with tia := r.1, rdyFlg := r.2, videoCallbacks := v.videoCallbacks + 1}

/-- The `vcs.TIA.ReadTIAMemory()` statement of `cycleVCS`. -/
def tiaMemPhase (v : VCSState) : VCSState := {v with tia := TIA.ReadTIAMemory v.tia}

/-- `cycleVCS` (src/hardware/vcs.go lines 92–116): the per-CPU-cycle
callback.  It increments the cycle counter, runs the RIOT once
(`ReadRIOTMemory` then `Step`), then runs three TIA color clocks
(`StepVideoCycle`), invoking the video-cycle callback after each one,
with `ReadTIAMemory` — the check for side effects of the CPU operation —
between the second and the third color clock.  The RDY flag is latched
from each TIA step. -/
def cycleVCS (v : VCSState) : VCSState :=
  cycleClock (tiaMemPhase (cycleClock (cycleClock (riotStepPhase (riotReadPhase (countCycle v))))))

/-- The drain loop of `VCS.Step` (src/hardware/vcs.go lines 129–135):
after the CPU instruction returns, keep cycling the VCS hardware until
the CPU is ready.  `fuel` bounds the iteration for termination. -/
def drainVCS : Nat → VCSState → VCSState
  | 0, v => v
  | n + 1, v => if v.rdyFlg then v else drainVCS n (cycleVCS v)

/-- `VCS.Step` (src/hardware/vcs.go lines 80–136): reset the local
cycle counter, execute one CPU instruction — the 6507 core is missing
from src and is modelled from spec §4.3 as invoking the per-cycle
callback once per CPU cycle consumed, `instructionCycles` many times —
then drain the hardware while RDY is low. -/
def VCS.Step (instructionCycles fuel : Nat) (v : VCSState) : VCSState :=
  let v := {v with cpuCycles := 0, videoCallbacks := 0}
  let v := cycleVCS^[instructionCycles] v
  drainVCS fuel v

end Gopher2600

namespace Gopher2600

/-! Concrete example states used by witnesses and counterexamples. -/

/-- An example video state (resolved pixel colour 3, debug colour 7). -/
def videoEx : VideoState := ⟨0, 0, 0, 0, 0, 5, 3, 7⟩

/-- An example signal record. -/
def sigEx : SignalAttributes := ⟨false, false, false, false, false, ColorSignal.videoBlack, 0, false, 0⟩

/-- An example TIA state: start of a scanline, HBLANK on, no pending
write, empty delay queue. -/
def tiaEx : TIAState :=
  { mem := ⟨none, []⟩, videoCycles := 0, pclk := 0, hsync := 0, delay := [],
    hblank := true, hmoveLatch := false, wsync := false, hmoveCt := 255,
    rsyncEvent := false, video := videoEx, audio := 0, sig := sigEx }

/-- An example RIOT state. -/
def riotEx : RIOTState := ⟨none, 0, 1, 0, false, 0⟩

/-- Example CPU registers. -/
def regsEx : CPURegisters := ⟨1, 2, 3, 253, 61440, 52⟩

/-- An example VCS state built from the pieces above. -/
def vcsEx : VCSState :=
  { regs := regsEx, rdyFlg := true, tia := tiaEx, riot := riotEx,
    cpuCycles := 0, videoCallbacks := 0 }

/-- A VCS state with a WSYNC write pending in the TIA chip-write inbox. -/
def vcsW : VCSState :=
  { vcsEx with tia := { tiaEx with mem := ⟨some ⟨Reg.WSYNC, 0⟩, []⟩ } }

/-- A VCS state whose CPU is in the unready state (RDY low). -/
def vcsLow : VCSState := { vcsEx with rdyFlg := false }

/-- A TIA state one color clock before a Φ2 rising edge with the HSYNC
counter at 55 (the next Φ2 tick decodes 56). -/
def tiaC4 : TIAState := { tiaEx with pclk := 1, hsync := 55 }

/-- A TIA state one color clock before a Φ2 rising edge with the HSYNC
counter at 15 (the next Φ2 tick decodes 16). -/
def tiaC5 : TIAState := { tiaEx with pclk := 1, hsync := 15 }

/-- Delay targets that release WSYNC: the start-of-scanline events. -/
def DelayTarget.isScanline : DelayTarget → Bool
  | .newScanline => true
  | .rsyncReset => true
  | _ => false

/-- True when the queue holds a start-of-scanline event that will fire
on the next `tick`. -/
def firesScanline (q : DelayQueue) : Bool :=
  q.any (fun e => (e.1 - 1 == 0) && e.2.isScanline)

/-- True when the queue holds a delayed HMOVE-latch event that will
fire on the next `tick`. -/
def firesHmoveLatch (q : DelayQueue) : Bool :=
  q.any (fun e => (e.1 - 1 == 0) && (e.2 == DelayTarget.hmoveLatchOn))

/-- True when the step's memory service cannot be an RSYNC write:
either servicing is off or the pending write (if any) targets another
register.  RSYNC immediately resets the HSYNC counter, so the
HSYNC-counter laws are stated away from it. -/
def rsyncFree (sm : Bool) (t : TIAState) : Bool :=
  !sm || (match t.mem.inbox with
          | some d => !(d.name == Reg.RSYNC)
          | none => true)

/-- True when the queue holds no entry for the given target
constructor-tag at all. -/
def noResetHBlank (q : DelayQueue) : Bool :=
  !(q.any (fun e => e.2 == DelayTarget.resetHBlank))

end Gopher2600

namespace Gopher2600

/-! The cartridge patcher (patch.CartridgeMemory of src/unnamed/part_005).
Strings are handled as character lists so that every operation is a
structural recursion; `String.toList` is taken at the boundary. -/

/-- The comment leader of patch files. -/
def commentLeader : Char := Char.ofNat 45

/-- The poke-line separator of patch files. -/
def pokeLineSeparator : Char := Char.ofNat 58

/-- Go `unicode.IsSpace` on the Latin-1 range, which is what a byte of
a patch line can decode to. -/
def goIsSpace (c : Char) : Bool :=
  c == Char.ofNat 32 || c == Char.ofNat 9 || c == Char.ofNat 10 || c == Char.ofNat 11 ||
  c == Char.ofNat 12 || c == Char.ofNat 13 || c == Char.ofNat 133 || c == Char.ofNat 160

/-- Go `strings.Split` with a one-character separator. -/
def splitOnChar (sep : Char) : List Char → List (List Char)
  | [] => [[]]
  | c :: cs =>
      let r := splitOnChar sep cs
      if c == sep then [] :: r
      else
        match r with
        | [] => [[c]]
        | h :: t => (c :: h) :: t

/-- Go `strings.TrimSpace`. -/
def goTrimSpace (s : List Char) : List Char :=
  ((s.dropWhile goIsSpace).reverse.dropWhile goIsSpace).reverse

/-- The value of a hexadecimal digit, upper or lower case. -/
def hexDigit (c : Char) : Option Nat :=
  if 48 ≤ c.toNat ∧ c.toNat ≤ 57 then some (c.toNat - 48)
  else if 97 ≤ c.toNat ∧ c.toNat ≤ 102 then some (c.toNat - 87)
  else if 65 ≤ c.toNat ∧ c.toNat ≤ 70 then some (c.toNat - 55)
  else none

/-- Accumulate hexadecimal digits; any other character fails. -/
def parseHexDigitsAux : List Char → Nat → Option Nat
  | [], acc => some acc
  | c :: cs, acc =>
      match hexDigit c with
      | some d => parseHexDigitsAux cs (acc * 16 + d)
      | none => none

/-- Parse a non-empty string of hexadecimal digits. -/
def parseHexDigits : List Char → Option Nat
  | [] => none
  | c :: cs => parseHexDigitsAux (c :: cs) 0

/-- Go `strconv.ParseUint(s, 16, 8)`: hexadecimal digits only, value
within 8 bits. -/
def ParseUint8 (s : List Char) : Option Nat :=
  match parseHexDigits s with
  | some n => if n ≤ 255 then some n else none
  | none => none

/-- Go `strconv.ParseInt(s, 16, 16)`: an optional sign, hexadecimal
digits, value within a signed 16-bit integer. -/
def ParseInt16 (s : List Char) : Option Int :=
  match s with
  | [] => none
  | c :: cs =>
      if c == Char.ofNat 43 then
        (parseHexDigits cs).bind (fun n => if n ≤ 32767 then some (Int.ofNat n) else none)
      else if c == Char.ofNat 45 then
        (parseHexDigits cs).bind (fun n => if n ≤ 32768 then some (-(Int.ofNat n)) else none)
      else
        (parseHexDigits (c :: cs)).bind
          (fun n => if n ≤ 32767 then some (Int.ofNat n) else none)

/-- Modelled from the spec: the cartridge seen by the patcher — its ROM
bytes, plus an instrumentation counter of successfully applied patch
bytes. -/
structure Cartridge where
  data : List Nat
  appliedCount : Nat
deriving DecidableEq, Repr

/-- Modelled from the spec: `cartMapper.patch(offset, data)` alters the
ROM data at the given offset as though read from disk; an offset beyond
the ROM is an error. -/
def Cartridge.Patch (cart : Cartridge) (offset : Nat) (v : Nat) : Except Errno Cartridge :=
  if offset < cart.data.length then
    Except.ok {data := cart.data.set offset (v % 256), appliedCount := cart.appliedCount + 1}
  else Except.error Errno.PatchError

/-- The inner loop of `patch.CartridgeMemory`
(src/unnamed/part_005 lines 105–131): walk the space-separated value
fields, trim each, skip empty fields and fields that fail to parse, and
write each parsed byte at the current address (truncated to 16 bits),
advancing the address only after a successful patch.  A patch error
aborts with the error. -/
def applyValues : List (List Char) → Int → Bool → Cartridge →
    Int × Bool × Cartridge × Option Errno
  | [], address, patched, cart => (address, patched, cart, none)
  | v :: rest, address, patched, cart =>
      let v2 := goTrimSpace v
      if v2.isEmpty then applyValues rest address patched cart
      else
        match ParseUint8 v2 with
        | none => applyValues rest address patched cart
        | some bv =>
            match Cartridge.Patch cart (address.emod 65536).toNat bv with
            | Except.error e => (address, patched, cart, some e)
            | Except.ok cart2 => applyValues rest (address + 1) true cart2

/-- The line loop of `patch.CartridgeMemory`
(src/unnamed/part_005 lines 74–132): skip empty lines, lines starting
with the comment leader or whitespace, lines that do not split into
exactly two parts on the colon, and lines whose address part does not
parse; otherwise run the value loop and carry its result. -/
def applyLines : List (List Char) → Bool → Cartridge → Bool × Cartridge × Option Errno
  | [], patched, cart => (patched, cart, none)
  | line :: rest, patched, cart =>
      if line.isEmpty then applyLines rest patched cart
      else
        match line.head? with
        | none => applyLines rest patched cart
        | some c0 =>
            if c0 == commentLeader || goIsSpace c0 then applyLines rest patched cart
            else
              let pokeLine := splitOnChar pokeLineSeparator line
              if !(pokeLine.length == 2) then applyLines rest patched cart
              else
                match ParseInt16 (goTrimSpace (pokeLine[0]?.getD [])) with
                | none => applyLines rest patched cart
                | some address =>
                    let values := splitOnChar (Char.ofNat 32)
                      (goTrimSpace (pokeLine[1]?.getD []))
                    match applyValues values address patched cart with
                    | (_, patched2, cart2, none) => applyLines rest patched2 cart2
                    | (_, patched2, cart2, some e) => (patched2, cart2, some e)

/-- `patch.CartridgeMemory` (src/unnamed/part_005): apply a patch file
to cartridge memory, reporting whether any byte was applied and any
patch error.  The file contents stand in for the opened file. -/
def CartridgeMemory (content : String) (cart : Cartridge) : Bool × Cartridge × Option Errno :=
  applyLines (splitOnChar (Char.ofNat 10) content.toList) false cart

/-- The skip conditions of the line loop, as the claim and the code
enumerate them: blank line, comment or whitespace leader, no single
colon, unparseable address. -/
def skippedLine (line : List Char) : Bool :=
  line.isEmpty ||
  (match line.head? with
   | some c0 => c0 == commentLeader || goIsSpace c0
   | none => false) ||
  !((splitOnChar pokeLineSeparator line).length == 2) ||
  (ParseInt16 (goTrimSpace ((splitOnChar pokeLineSeparator line)[0]?.getD []))).isNone

/-- The parsed byte values of a value list: trimmed, empty fields and
unparseable fields dropped. -/
def parsedValues (tokens : List (List Char)) : List Nat :=
  tokens.filterMap (fun t =>
    let t2 := goTrimSpace t
    if t2.isEmpty then none else ParseUint8 t2)

/-- The claim's sequential write: the byte values are written to
consecutive cartridge offsets starting at the given address. -/
def writeSeq (c : Cartridge) (addr : Nat) : List Nat → Cartridge
  | [] => c
  | v :: vs =>
      writeSeq {data := c.data.set addr (v % 256), appliedCount := c.appliedCount + 1}
        (addr + 1) vs

/-- A 32-byte cartridge of zeroes. -/
def cart32 : Cartridge := ⟨List.replicate 32 0, 0⟩

/-! The hand controller (src/unnamed/part_006).  Chip-memory writes are
recorded as (address, data, preserve-mask) logs; the float32 paddle
values are represented as rationals. -/

/-- Input events handled by a hand controller. -/
inductive Event where
  | NoEvent | Left | Right | Up | Down | Fire
  | PaddleFire | PaddleSet
  | KeyboardDown | KeyboardUp
  | Unplug
deriving DecidableEq, Repr

/-- Values carried by input events: a bool, a float (as a rational), a
rune, or nil. -/
inductive EventValue where
  | b (x : Bool)
  | flt (x : ℚ)
  | rn (c : Char)
  | nothing
deriving DecidableEq, Repr

/-- Modelled from the spec: RIOT/TIA register addresses of the missing
`addresses` package. -/
def SWCHA : Nat := 640

/-- Modelled from the spec: TIA input-port addresses. -/
def INPT0 : Nat := 56

/-- Modelled from the spec: TIA input-port addresses. -/
def INPT1 : Nat := 57

/-- Modelled from the spec: TIA input-port addresses. -/
def INPT4 : Nat := 60

/-- Modelled from the spec: TIA input-port addresses. -/
def INPT5 : Nat := 61

/-- A hand controller (src/unnamed/part_006): stick, paddle and
keyboard state plus the wiring constants of its port.  `riotWrites` and
`tiaWrites` record the `InputDeviceWrite` calls. -/
structure HandController where
  stickAddr : Nat
  stickButtonAddr : Nat
  stickAxis : Nat
  stickButton : Bool
  transformShift : Bool
  stickAddrMask : Nat
  paddleAddr : Nat
  paddleButtonAddr : Nat
  paddleButtonMask : Nat
  paddleCharge : Nat
  paddleResistance : ℚ
  paddleTicks : ℚ
  keyboardKey : Char
  ddr : Nat
  latchFireButton : Bool
  riotWrites : List (Nat × Nat × Nat)
  tiaWrites : List (Nat × Nat × Nat)
deriving DecidableEq, Repr

/-- The per-controller axis transform: hand controller one writes its
axis value shifted to the other nibble. -/
def HandController.transform (hc : HandController) (n : Nat) : Nat :=
  if hc.transformShift then n / 16 else n

/-- Record a RIOT `InputDeviceWrite`. -/
def HandController.riotWrite (hc : HandController) (addr data mask : Nat) : HandController :=
  {hc with riotWrites := hc.riotWrites ++ [(addr, data, mask)]}

/-- Record a TIA `InputDeviceWrite`. -/
def HandController.tiaWrite (hc : HandController) (addr data mask : Nat) : HandController :=
  {hc with tiaWrites := hc.tiaWrites ++ [(addr, data, mask)]}

/-- `NewHandController0` (src/unnamed/part_006). -/
def NewHandController0 : HandController :=
  { stickAddr := SWCHA, stickButtonAddr := INPT4, stickAxis := 240, stickButton := false,
    transformShift := false, stickAddrMask := 15,
    paddleAddr := INPT0, paddleButtonAddr := SWCHA, paddleButtonMask := 127,
    paddleCharge := 0, paddleResistance := 0, paddleTicks := 0,
    keyboardKey := Char.ofNat 32, ddr := 0, latchFireButton := false,
    riotWrites := [], tiaWrites := [] }

/-- `NewHandController1` (src/unnamed/part_006). -/
def NewHandController1 : HandController :=
  { stickAddr := SWCHA, stickButtonAddr := INPT5, stickAxis := 240, stickButton := false,
    transformShift := true, stickAddrMask := 240,
    paddleAddr := INPT1, paddleButtonAddr := SWCHA, paddleButtonMask := 191,
    paddleCharge := 0, paddleResistance := 0, paddleTicks := 0,
    keyboardKey := Char.ofNat 32, ddr := 0, latchFireButton := false,
    riotWrites := [], tiaWrites := [] }

/-- `HandController.Handle` (src/unnamed/part_006 lines 157–285): the
event switch.  A value of the wrong dynamic type yields
`BadInputEventType`; `KeyboardDown` additionally validates the rune
against the set the code accepts.  The event recorder is not modelled
(none is attached). -/
def HandController.Handle (hc : HandController) (event : Event) (value : EventValue) :
    Except Errno HandController :=
  match event with
  | .NoEvent => Except.ok hc
  | .Left =>
      match value with
      | .b v =>
          let axis := if v then hc.stickAxis ^^^ 64 else hc.stickAxis ||| 64
          let hc := {hc with stickAxis := axis}
          Except.ok (hc.riotWrite hc.stickAddr (hc.transform hc.stickAxis) hc.stickAddrMask)
      | _ => Except.error Errno.BadInputEventType
  | .Right =>
      match value with
      | .b v =>
          let axis := if v then hc.stickAxis ^^^ 128 else hc.stickAxis ||| 128
          let hc := {hc with stickAxis := axis}
          Except.ok (hc.riotWrite hc.stickAddr (hc.transform hc.stickAxis) hc.stickAddrMask)
      | _ => Except.error Errno.BadInputEventType
  | .Up =>
      match value with
      | .b v =>
          let axis := if v then hc.stickAxis ^^^ 16 else hc.stickAxis ||| 16
          let hc := {hc with stickAxis := axis}
          Except.ok (hc.riotWrite hc.stickAddr (hc.transform hc.stickAxis) hc.stickAddrMask)
      | _ => Except.error Errno.BadInputEventType
  | .Down =>
      match value with
      | .b v =>
          let axis := if v then hc.stickAxis ^^^ 32 else hc.stickAxis ||| 32
          let hc := {hc with stickAxis := axis}
          Except.ok (hc.riotWrite hc.stickAddr (hc.transform hc.stickAxis) hc.stickAddrMask)
      | _ => Except.error Errno.BadInputEventType
  | .Fire =>
      match value with
      | .b v =>
          let hc := {hc with stickButton := v}
          if hc.stickButton then Except.ok (hc.tiaWrite hc.stickButtonAddr 0 0)
          else if !hc.latchFireButton then Except.ok (hc.tiaWrite hc.stickButtonAddr 128 0)
          else Except.ok hc
      | _ => Except.error Errno.BadInputEventType
  | .PaddleFire =>
      match value with
      | .b v =>
          let d := if v then 0 else 255
          Except.ok (hc.riotWrite hc.paddleButtonAddr d hc.paddleButtonMask)
      | _ => Except.error Errno.BadInputEventType
  | .PaddleSet =>
      match value with
      | .flt f => Except.ok {hc with paddleResistance := 1 - f}
      | _ => Except.error Errno.BadInputEventType
  | .KeyboardDown =>
      match value with
      | .rn v =>
          if v != Char.ofNat 49 && v != Char.ofNat 50 && v != Char.ofNat 51 &&
             v != Char.ofNat 52 && v != Char.ofNat 53 && v != Char.ofNat 54 &&
             v != Char.ofNat 55 && v != Char.ofNat 56 && v != Char.ofNat 57 &&
             v != Char.ofNat 42 && v != Char.ofNat 35 then
            Except.error Errno.BadInputEventType
          else Except.ok {hc with keyboardKey := v}
      | _ => Except.error Errno.BadInputEventType
  | .KeyboardUp =>
      match value with
      | .nothing => Except.ok {hc with keyboardKey := Char.ofNat 32}
      | _ => Except.error Errno.BadInputEventType
  | .Unplug => Except.error Errno.InputDeviceUnplugged

end Gopher2600

namespace Gopher2600

/-! Frame lemmas for the delayed-event dispatcher. -/

lemma applyEvent_mem (t : DelayTarget) (s : TIAState) : (TIA.applyEvent t s).mem = s.mem := by
  cases t <;> rfl

lemma applyEvent_videoCycles (t : DelayTarget) (s : TIAState) :
    (TIA.applyEvent t s).videoCycles = s.videoCycles := by
  cases t <;> rfl

lemma applyEvent_pclk (t : DelayTarget) (s : TIAState) : (TIA.applyEvent t s).pclk = s.pclk := by
  cases t <;> rfl

lemma applyEvent_hsync (t : DelayTarget) (s : TIAState) : (TIA.applyEvent t s).hsync = s.hsync := by
  cases t <;> rfl

lemma applyEvent_delay (t : DelayTarget) (s : TIAState) : (TIA.applyEvent t s).delay = s.delay := by
  cases t <;> rfl

lemma applyEvent_wsync (t : DelayTarget) (s : TIAState) :
    (TIA.applyEvent t s).wsync = (s.wsync && !t.isScanline) := by
  cases t <;> simp [TIA.applyEvent, DelayTarget.isScanline]

lemma applyEvent_hmoveLatch (t : DelayTarget) (s : TIAState) :
    (TIA.applyEvent t s).hmoveLatch = (s.hmoveLatch || t == DelayTarget.hmoveLatchOn) := by
  cases t <;> simp [TIA.applyEvent]

lemma applyEvent_hmoveCt (t : DelayTarget) (s : TIAState) :
    (TIA.applyEvent t s).hmoveCt = (if t == DelayTarget.hmoveLatchOn then 15 else s.hmoveCt) := by
  cases t <;> simp [TIA.applyEvent]

lemma applyEvent_rsyncEvent_false (t : DelayTarget) (s : TIAState) (h : s.rsyncEvent = false) :
    (TIA.applyEvent t s).rsyncEvent = false := by
  cases t <;> simp [TIA.applyEvent, h]

lemma foldlEvents_mem (ts : List DelayTarget) (s : TIAState) :
    (ts.foldl (fun s t => TIA.applyEvent t s) s).mem = s.mem := by
  induction ts generalizing s with
  | nil => rfl
  | cons t ts ih => simp [List.foldl_cons, ih, applyEvent_mem]

lemma foldlEvents_videoCycles (ts : List DelayTarget) (s : TIAState) :
    (ts.foldl (fun s t => TIA.applyEvent t s) s).videoCycles = s.videoCycles := by
  induction ts generalizing s with
  | nil => rfl
  | cons t ts ih => simp [List.foldl_cons, ih, applyEvent_videoCycles]

lemma foldlEvents_pclk (ts : List DelayTarget) (s : TIAState) :
    (ts.foldl (fun s t => TIA.applyEvent t s) s).pclk = s.pclk := by
  induction ts generalizing s with
  | nil => rfl
  | cons t ts ih => simp [List.foldl_cons, ih, applyEvent_pclk]

lemma foldlEvents_hsync (ts : List DelayTarget) (s : TIAState) :
    (ts.foldl (fun s t => TIA.applyEvent t s) s).hsync = s.hsync := by
  induction ts generalizing s with
  | nil => rfl
  | cons t ts ih => simp [List.foldl_cons, ih, applyEvent_hsync]

lemma foldlEvents_delay (ts : List DelayTarget) (s : TIAState) :
    (ts.foldl (fun s t => TIA.applyEvent t s) s).delay = s.delay := by
  induction ts generalizing s with
  | nil => rfl
  | cons t ts ih => simp [List.foldl_cons, ih, applyEvent_delay]

lemma foldlEvents_wsync (ts : List DelayTarget) (s : TIAState) :
    (ts.foldl (fun s t => TIA.applyEvent t s) s).wsync
      = (s.wsync && !(ts.any DelayTarget.isScanline)) := by
  induction ts generalizing s with
  | nil => simp
  | cons t ts ih =>
      simp only [List.foldl_cons, ih, applyEvent_wsync, List.any_cons]
      cases s.wsync <;> simp [Bool.and_assoc]

lemma foldlEvents_hmoveLatch (ts : List DelayTarget) (s : TIAState) :
    (ts.foldl (fun s t => TIA.applyEvent t s) s).hmoveLatch
      = (s.hmoveLatch || ts.any (fun t => t == DelayTarget.hmoveLatchOn)) := by
  induction ts generalizing s with
  | nil => simp
  | cons t ts ih =>
      simp only [List.foldl_cons, ih, applyEvent_hmoveLatch, List.any_cons]
      cases s.hmoveLatch <;> simp [Bool.or_assoc]

lemma foldlEvents_hmoveCt (ts : List DelayTarget) (s : TIAState)
    (h : ts.any (fun t => t == DelayTarget.hmoveLatchOn) = false) :
    (ts.foldl (fun s t => TIA.applyEvent t s) s).hmoveCt = s.hmoveCt := by
  induction ts generalizing s with
  | nil => rfl
  | cons t ts ih =>
      simp only [List.any_cons, Bool.or_eq_false_iff] at h
      simp [List.foldl_cons, ih _ h.2, applyEvent_hmoveCt, h.1]

lemma foldlEvents_rsyncEvent_false (ts : List DelayTarget) (s : TIAState)
    (h : s.rsyncEvent = false) :
    (ts.foldl (fun s t => TIA.applyEvent t s) s).rsyncEvent = false := by
  induction ts generalizing s with
  | nil => exact h
  | cons t ts ih => simp [List.foldl_cons, ih _ (applyEvent_rsyncEvent_false t s h)]

/-- The fired-event list of a queue tick satisfies a predicate exactly
when some slot about to reach zero satisfies it. -/
lemma tick_fired_any (p : DelayTarget → Bool) (q : DelayQueue) :
    ((DelayQueue.tick q).1.any p)
      = q.any (fun e => (e.1 - 1 == 0) && p e.2) := by
  induction q with
  | nil => rfl
  | cons e q ih =>
      simp only [DelayQueue.tick, List.map_cons, List.filter_cons] at ih ⊢
      by_cases h : e.1 - 1 = 0
      · have hb : (e.1 - 1 == 0) = true := by simpa using h
        simp [hb, List.any_cons, ih]
      · have hb : (e.1 - 1 == 0) = false := by simpa using h
        simp [hb, List.any_cons, ih]

end Gopher2600

namespace Gopher2600

/-! Lemmas about the delay-queue tick embedded in the TIA step. -/

lemma delayTick_mem (s : TIAState) : (TIA.delayTick s).mem = s.mem := by
  simp [TIA.delayTick, foldlEvents_mem]

lemma delayTick_videoCycles (s : TIAState) :
    (TIA.delayTick s).videoCycles = s.videoCycles := by
  simp [TIA.delayTick, foldlEvents_videoCycles]

lemma delayTick_pclk (s : TIAState) : (TIA.delayTick s).pclk = s.pclk := by
  simp [TIA.delayTick, foldlEvents_pclk]

lemma delayTick_hsync (s : TIAState) : (TIA.delayTick s).hsync = s.hsync := by
  simp [TIA.delayTick, foldlEvents_hsync]

lemma delayTick_wsync (s : TIAState) :
    (TIA.delayTick s).wsync = (s.wsync && !firesScanline s.delay) := by
  simp only [TIA.delayTick, foldlEvents_wsync, firesScanline]
  rw [tick_fired_any]

lemma delayTick_hmoveLatch (s : TIAState) :
    (TIA.delayTick s).hmoveLatch = (s.hmoveLatch || firesHmoveLatch s.delay) := by
  simp only [TIA.delayTick, foldlEvents_hmoveLatch, firesHmoveLatch]
  rw [tick_fired_any]

lemma delayTick_hmoveCt (s : TIAState) (h : firesHmoveLatch s.delay = false) :
    (TIA.delayTick s).hmoveCt = s.hmoveCt := by
  have h2 : (DelayQueue.tick s.delay).1.any (fun t => t == DelayTarget.hmoveLatchOn) = false := by
    rw [tick_fired_any]
    exact h
  simp [TIA.delayTick, foldlEvents_hmoveCt _ _ h2]

lemma delayTick_rsyncEvent_false (s : TIAState) (h : s.rsyncEvent = false) :
    (TIA.delayTick s).rsyncEvent = false := by
  simp only [TIA.delayTick]
  exact foldlEvents_rsyncEvent_false _ _ h

lemma delayTick_delay_any (p : Nat × DelayTarget → Bool) (s : TIAState)
    (h : s.delay.any (fun e => p (e.1 - 1, e.2)) = false) :
    (TIA.delayTick s).delay.any p = false := by
  simp only [TIA.delayTick, foldlEvents_delay, DelayQueue.tick]
  rw [List.any_eq_false] at h ⊢
  intro e he
  have := List.of_mem_filter he
  obtain ⟨a, ha, rfl⟩ := List.mem_map.1 (List.mem_of_mem_filter he)
  exact h a ha

/-! Queue helpers for scheduling. -/

lemma schedule_any (p : Nat × DelayTarget → Bool) (n : Nat) (t : DelayTarget) (q : DelayQueue) :
    (DelayQueue.schedule n t q).any p
      = ((q.filter (fun e => !(DelayTarget.sameTag e.2 t))).any p || p (n, t)) := by
  simp [DelayQueue.schedule, List.any_append]

lemma filter_any_false (p f : Nat × DelayTarget → Bool) (q : DelayQueue)
    (h : q.any p = false) : (q.filter f).any p = false := by
  rw [List.any_eq_false] at h ⊢
  exact fun e he => h e (List.mem_of_mem_filter he)

lemma schedule_any_false (p : Nat × DelayTarget → Bool) (n : Nat) (t : DelayTarget)
    (q : DelayQueue) (hq : q.any p = false) (ht : p (n, t) = false) :
    (DelayQueue.schedule n t q).any p = false := by
  rw [schedule_any, filter_any_false _ _ _ hq, ht]
  rfl

lemma schedule_mem_self (n : Nat) (t : DelayTarget) (q : DelayQueue) :
    (n, t) ∈ DelayQueue.schedule n t q := by
  simp [DelayQueue.schedule]

lemma schedule_mem_of_sameTag_false (n m : Nat) (t u : DelayTarget) (q : DelayQueue)
    (h : (n, t) ∈ q) (hne : DelayTarget.sameTag t u = false) :
    (n, t) ∈ DelayQueue.schedule m u q := by
  simp only [DelayQueue.schedule, List.mem_append]
  exact Or.inl (List.mem_filter.2 ⟨h, by simp [hne]⟩)

end Gopher2600

namespace Gopher2600

/-! Lemmas about the HSYNC-counter section of the TIA step. -/

lemma hsyncSection_mem (s : TIAState) : (TIA.hsyncSection s).mem = s.mem := by
  unfold TIA.hsyncSection TIA.schedule
  dsimp only
  repeat' split
  all_goals rfl

lemma hsyncSection_videoCycles (s : TIAState) :
    (TIA.hsyncSection s).videoCycles = s.videoCycles := by
  unfold TIA.hsyncSection TIA.schedule
  dsimp only
  repeat' split
  all_goals rfl

lemma hsyncSection_pclk (s : TIAState) : (TIA.hsyncSection s).pclk = s.pclk := by
  unfold TIA.hsyncSection TIA.schedule
  dsimp only
  repeat' split
  all_goals rfl

lemma hsyncSection_wsync (s : TIAState) : (TIA.hsyncSection s).wsync = s.wsync := by
  unfold TIA.hsyncSection TIA.schedule
  dsimp only
  repeat' split
  all_goals rfl

lemma hsyncSection_hblank (s : TIAState) : (TIA.hsyncSection s).hblank = s.hblank := by
  unfold TIA.hsyncSection TIA.schedule
  dsimp only
  repeat' split
  all_goals rfl

lemma hsyncSection_hmoveCt (s : TIAState) : (TIA.hsyncSection s).hmoveCt = s.hmoveCt := by
  unfold TIA.hsyncSection TIA.schedule
  dsimp only
  repeat' split
  all_goals rfl

lemma hsyncSection_video (s : TIAState) : (TIA.hsyncSection s).video = s.video := by
  unfold TIA.hsyncSection TIA.schedule
  dsimp only
  repeat' split
  all_goals rfl

lemma hsyncSection_rsyncEvent (s : TIAState) :
    (TIA.hsyncSection s).rsyncEvent = s.rsyncEvent := by
  unfold TIA.hsyncSection TIA.schedule
  dsimp only
  repeat' split
  all_goals rfl

lemma hsyncSection_hsync (s : TIAState) :
    (TIA.hsyncSection s).hsync
      = if PhaseClock.Phi2 s.pclk then
          (if s.hsync + 1 == 57 then 0 else s.hsync + 1)
        else s.hsync := by
  unfold TIA.hsyncSection TIA.schedule
  dsimp only
  repeat' split
  all_goals simp_all

lemma hsyncSection_hmoveLatch (s : TIAState) :
    (TIA.hsyncSection s).hmoveLatch
      = if PhaseClock.Phi2 s.pclk && (s.hsync + 1 == 57) then false
        else s.hmoveLatch := by
  unfold TIA.hsyncSection TIA.schedule
  dsimp only
  repeat' split
  all_goals simp_all

end Gopher2600

namespace Gopher2600

/-! Projection helpers for the conditional HMOVE-counter update. -/

lemma ite_hmoveCt_mem (c : Prop) [Decidable c] (t : TIAState) (x : Nat) :
    (if c then {t with hmoveCt := x} else t).mem = t.mem := by
  split <;> rfl

lemma ite_hmoveCt_videoCycles (c : Prop) [Decidable c] (t : TIAState) (x : Nat) :
    (if c then {t with hmoveCt := x} else t).videoCycles = t.videoCycles := by
  split <;> rfl

lemma ite_hmoveCt_wsync (c : Prop) [Decidable c] (t : TIAState) (x : Nat) :
    (if c then {t with hmoveCt := x} else t).wsync = t.wsync := by
  split <;> rfl

lemma ite_hmoveCt_hsync (c : Prop) [Decidable c] (t : TIAState) (x : Nat) :
    (if c then {t with hmoveCt := x} else t).hsync = t.hsync := by
  split <;> rfl

lemma ite_hmoveCt_hmoveLatch (c : Prop) [Decidable c] (t : TIAState) (x : Nat) :
    (if c then {t with hmoveCt := x} else t).hmoveLatch = t.hmoveLatch := by
  split <;> rfl

lemma ite_hmoveCt_hblank (c : Prop) [Decidable c] (t : TIAState) (x : Nat) :
    (if c then {t with hmoveCt := x} else t).hblank = t.hblank := by
  split <;> rfl

lemma ite_hmoveCt_pclk (c : Prop) [Decidable c] (t : TIAState) (x : Nat) :
    (if c then {t with hmoveCt := x} else t).pclk = t.pclk := by
  split <;> rfl

lemma ite_hmoveCt_delay (c : Prop) [Decidable c] (t : TIAState) (x : Nat) :
    (if c then {t with hmoveCt := x} else t).delay = t.delay := by
  split <;> rfl

lemma ite_hmoveCt_sig (c : Prop) [Decidable c] (t : TIAState) (x : Nat) :
    (if c then {t with hmoveCt := x} else t).sig = t.sig := by
  split <;> rfl

lemma ite_hmoveCt_hmoveCt (c : Prop) [Decidable c] (t : TIAState) (x : Nat) :
    (if c then {t with hmoveCt := x} else t).hmoveCt = if c then x else t.hmoveCt := by
  split <;> rfl

/-! Frame lemmas for the small stages of the TIA step. -/

lemma videoCyclesInc_mem (t : TIAState) : (TIA.videoCyclesInc t).mem = t.mem := rfl

lemma videoCyclesInc_videoCycles (t : TIAState) :
    (TIA.videoCyclesInc t).videoCycles = t.videoCycles + 1 := rfl

lemma videoCyclesInc_pclk (t : TIAState) : (TIA.videoCyclesInc t).pclk = t.pclk := rfl

lemma videoCyclesInc_hsync (t : TIAState) : (TIA.videoCyclesInc t).hsync = t.hsync := rfl

lemma videoCyclesInc_delay (t : TIAState) : (TIA.videoCyclesInc t).delay = t.delay := rfl

lemma videoCyclesInc_wsync (t : TIAState) : (TIA.videoCyclesInc t).wsync = t.wsync := rfl

lemma videoCyclesInc_hblank (t : TIAState) : (TIA.videoCyclesInc t).hblank = t.hblank := rfl

lemma videoCyclesInc_hmoveLatch (t : TIAState) :
    (TIA.videoCyclesInc t).hmoveLatch = t.hmoveLatch := rfl

lemma videoCyclesInc_hmoveCt (t : TIAState) : (TIA.videoCyclesInc t).hmoveCt = t.hmoveCt := rfl

lemma videoCyclesInc_rsyncEvent (t : TIAState) :
    (TIA.videoCyclesInc t).rsyncEvent = t.rsyncEvent := rfl

lemma pclkTickStage_mem (t : TIAState) : (TIA.pclkTickStage t).mem = t.mem := rfl

lemma pclkTickStage_videoCycles (t : TIAState) :
    (TIA.pclkTickStage t).videoCycles = t.videoCycles := rfl

lemma pclkTickStage_pclk (t : TIAState) :
    (TIA.pclkTickStage t).pclk = PhaseClock.tick t.pclk := rfl

lemma pclkTickStage_hsync (t : TIAState) : (TIA.pclkTickStage t).hsync = t.hsync := rfl

lemma pclkTickStage_delay (t : TIAState) : (TIA.pclkTickStage t).delay = t.delay := rfl

lemma pclkTickStage_wsync (t : TIAState) : (TIA.pclkTickStage t).wsync = t.wsync := rfl

lemma pclkTickStage_hblank (t : TIAState) : (TIA.pclkTickStage t).hblank = t.hblank := rfl

lemma pclkTickStage_hmoveLatch (t : TIAState) :
    (TIA.pclkTickStage t).hmoveLatch = t.hmoveLatch := rfl

lemma pclkTickStage_hmoveCt (t : TIAState) : (TIA.pclkTickStage t).hmoveCt = t.hmoveCt := rfl

lemma pclkTickStage_rsyncEvent (t : TIAState) :
    (TIA.pclkTickStage t).rsyncEvent = t.rsyncEvent := rfl

lemma serviceA_false (t : TIAState) :
    TIA.serviceA false t = (false, ⟨Reg.other, 0⟩, t) := rfl

lemma serviceB_false (d : ChipData) (t : TIAState) : TIA.serviceB false d t = (false, t) := rfl

lemma serviceB_frame (sm : Bool) (d : ChipData) (t : TIAState) :
    (TIA.serviceB sm d t).2.mem = t.mem ∧
    (TIA.serviceB sm d t).2.videoCycles = t.videoCycles ∧
    (TIA.serviceB sm d t).2.pclk = t.pclk ∧
    (TIA.serviceB sm d t).2.hsync = t.hsync ∧
    (TIA.serviceB sm d t).2.wsync = t.wsync ∧
    (TIA.serviceB sm d t).2.hblank = t.hblank ∧
    (TIA.serviceB sm d t).2.hmoveLatch = t.hmoveLatch ∧
    (TIA.serviceB sm d t).2.hmoveCt = t.hmoveCt ∧
    (TIA.serviceB sm d t).2.sig = t.sig ∧
    (TIA.serviceB sm d t).2.rsyncEvent = t.rsyncEvent := by
  cases sm
  · exact ⟨rfl, rfl, rfl, rfl, rfl, rfl, rfl, rfl, rfl, rfl⟩
  · rcases d with ⟨nm, val⟩
    cases nm <;> exact ⟨rfl, rfl, rfl, rfl, rfl, rfl, rfl, rfl, rfl, rfl⟩

lemma spriteTickStage_mem (t : TIAState) : (TIA.spriteTickStage t).mem = t.mem := rfl

lemma spriteTickStage_videoCycles (t : TIAState) :
    (TIA.spriteTickStage t).videoCycles = t.videoCycles := rfl

lemma spriteTickStage_pclk (t : TIAState) : (TIA.spriteTickStage t).pclk = t.pclk := rfl

lemma spriteTickStage_hsync (t : TIAState) : (TIA.spriteTickStage t).hsync = t.hsync := rfl

lemma spriteTickStage_delay (t : TIAState) : (TIA.spriteTickStage t).delay = t.delay := rfl

lemma spriteTickStage_wsync (t : TIAState) : (TIA.spriteTickStage t).wsync = t.wsync := rfl

lemma spriteTickStage_hblank (t : TIAState) : (TIA.spriteTickStage t).hblank = t.hblank := rfl

lemma spriteTickStage_hmoveLatch (t : TIAState) :
    (TIA.spriteTickStage t).hmoveLatch = t.hmoveLatch := rfl

lemma spriteTickStage_hmoveCt (t : TIAState) :
    (TIA.spriteTickStage t).hmoveCt = t.hmoveCt := rfl

lemma spriteTickStage_rsyncEvent (t : TIAState) :
    (TIA.spriteTickStage t).rsyncEvent = t.rsyncEvent := rfl

lemma hmoveCtStage_mem (t : TIAState) : (TIA.hmoveCtStage t).mem = t.mem := by
  unfold TIA.hmoveCtStage
  split <;> rfl

lemma hmoveCtStage_videoCycles (t : TIAState) :
    (TIA.hmoveCtStage t).videoCycles = t.videoCycles := by
  unfold TIA.hmoveCtStage
  split <;> rfl

lemma hmoveCtStage_pclk (t : TIAState) : (TIA.hmoveCtStage t).pclk = t.pclk := by
  unfold TIA.hmoveCtStage
  split <;> rfl

lemma hmoveCtStage_hsync (t : TIAState) : (TIA.hmoveCtStage t).hsync = t.hsync := by
  unfold TIA.hmoveCtStage
  split <;> rfl

lemma hmoveCtStage_delay (t : TIAState) : (TIA.hmoveCtStage t).delay = t.delay := by
  unfold TIA.hmoveCtStage
  split <;> rfl

lemma hmoveCtStage_wsync (t : TIAState) : (TIA.hmoveCtStage t).wsync = t.wsync := by
  unfold TIA.hmoveCtStage
  split <;> rfl

lemma hmoveCtStage_hblank (t : TIAState) : (TIA.hmoveCtStage t).hblank = t.hblank := by
  unfold TIA.hmoveCtStage
  split <;> rfl

lemma hmoveCtStage_hmoveLatch (t : TIAState) :
    (TIA.hmoveCtStage t).hmoveLatch = t.hmoveLatch := by
  unfold TIA.hmoveCtStage
  split <;> rfl

lemma hmoveCtStage_hmoveCt (t : TIAState) :
    (TIA.hmoveCtStage t).hmoveCt
      = if PhaseClock.Phi2 t.pclk && !(t.hmoveCt == 255) then (t.hmoveCt + 255) % 256
        else t.hmoveCt := by
  unfold TIA.hmoveCtStage
  split <;> simp_all

lemma pixelStage_mem (t : TIAState) : (TIA.pixelStage t).mem = t.mem := by
  unfold TIA.pixelStage
  dsimp only
  split <;> rfl

lemma pixelStage_videoCycles (t : TIAState) :
    (TIA.pixelStage t).videoCycles = t.videoCycles := by
  unfold TIA.pixelStage
  dsimp only
  split <;> rfl

lemma pixelStage_hsync (t : TIAState) : (TIA.pixelStage t).hsync = t.hsync := by
  unfold TIA.pixelStage
  dsimp only
  split <;> rfl

lemma pixelStage_delay (t : TIAState) : (TIA.pixelStage t).delay = t.delay := by
  unfold TIA.pixelStage
  dsimp only
  split <;> rfl

lemma pixelStage_wsync (t : TIAState) : (TIA.pixelStage t).wsync = t.wsync := by
  unfold TIA.pixelStage
  dsimp only
  split <;> rfl

lemma pixelStage_hmoveLatch (t : TIAState) :
    (TIA.pixelStage t).hmoveLatch = t.hmoveLatch := by
  unfold TIA.pixelStage
  dsimp only
  split <;> rfl

lemma pixelStage_hmoveCt (t : TIAState) : (TIA.pixelStage t).hmoveCt = t.hmoveCt := by
  unfold TIA.pixelStage
  dsimp only
  split <;> rfl

lemma pixelStage_sig_AltPixel (t : TIAState) :
    (TIA.pixelStage t).sig.AltPixel = (Video.Pixel t.video).2 := by
  unfold TIA.pixelStage
  dsimp only
  split <;> rfl

lemma pixelStage_sig_Pixel (t : TIAState) :
    (TIA.pixelStage t).sig.Pixel
      = if t.hblank then ColorSignal.videoBlack
        else ColorSignal.color (Video.Pixel t.video).1 := by
  unfold TIA.pixelStage
  dsimp only
  split <;> simp_all

lemma serviceC_sig (sm : Bool) (d : ChipData) (t : TIAState) :
    (TIA.serviceC sm d t).sig = t.sig := by
  cases sm
  · rfl
  · rcases d with ⟨nm, val⟩
    cases nm <;> rfl

lemma serviceC_mem (sm : Bool) (d : ChipData) (t : TIAState) :
    (TIA.serviceC sm d t).mem = t.mem := by
  cases sm
  · rfl
  · rcases d with ⟨nm, val⟩
    cases nm <;> rfl

lemma serviceC_videoCycles (sm : Bool) (d : ChipData) (t : TIAState) :
    (TIA.serviceC sm d t).videoCycles = t.videoCycles := by
  cases sm
  · rfl
  · rcases d with ⟨nm, val⟩
    cases nm <;> rfl

lemma serviceC_hsync (sm : Bool) (d : ChipData) (t : TIAState) :
    (TIA.serviceC sm d t).hsync = t.hsync := by
  cases sm
  · rfl
  · rcases d with ⟨nm, val⟩
    cases nm <;> rfl

lemma serviceC_delay (sm : Bool) (d : ChipData) (t : TIAState) :
    (TIA.serviceC sm d t).delay = t.delay := by
  cases sm
  · rfl
  · rcases d with ⟨nm, val⟩
    cases nm <;> rfl

lemma serviceC_wsync (sm : Bool) (d : ChipData) (t : TIAState) :
    (TIA.serviceC sm d t).wsync = t.wsync := by
  cases sm
  · rfl
  · rcases d with ⟨nm, val⟩
    cases nm <;> rfl

lemma serviceC_hmoveLatch (sm : Bool) (d : ChipData) (t : TIAState) :
    (TIA.serviceC sm d t).hmoveLatch = t.hmoveLatch := by
  cases sm
  · rfl
  · rcases d with ⟨nm, val⟩
    cases nm <;> rfl

lemma serviceC_hmoveCt (sm : Bool) (d : ChipData) (t : TIAState) :
    (TIA.serviceC sm d t).hmoveCt = t.hmoveCt := by
  cases sm
  · rfl
  · rcases d with ⟨nm, val⟩
    cases nm <;> rfl

lemma audioStage_mem (t : TIAState) : (TIA.audioStage t).mem = t.mem := rfl

lemma audioStage_videoCycles (t : TIAState) :
    (TIA.audioStage t).videoCycles = t.videoCycles := rfl

lemma audioStage_hsync (t : TIAState) : (TIA.audioStage t).hsync = t.hsync := rfl

lemma audioStage_delay (t : TIAState) : (TIA.audioStage t).delay = t.delay := rfl

lemma audioStage_wsync (t : TIAState) : (TIA.audioStage t).wsync = t.wsync := rfl

lemma audioStage_hmoveLatch (t : TIAState) : (TIA.audioStage t).hmoveLatch = t.hmoveLatch := rfl

lemma audioStage_hmoveCt (t : TIAState) : (TIA.audioStage t).hmoveCt = t.hmoveCt := rfl

lemma audioStage_sig_Pixel (t : TIAState) : (TIA.audioStage t).sig.Pixel = t.sig.Pixel := rfl

lemma audioStage_sig_AltPixel (t : TIAState) :
    (TIA.audioStage t).sig.AltPixel = t.sig.AltPixel := rfl

/-! The result of `TIA.Step` is the pre-signal state, except that on
the normal path the `HSyncSimple` attribute is reset. -/

lemma step_1_cases (tv : SignalAttributes → Option Errno) (b : Bool) (s : TIAState) :
    (TIA.Step tv b s).1 = TIA.stepPreSignal b s ∨
    (TIA.Step tv b s).1 = {TIA.stepPreSignal b s with sig.HSyncSimple := false} := by
  simp only [TIA.Step]
  cases h : tv (TIA.stepPreSignal b s).sig
  · right
    rfl
  · dsimp only
    split
    · left
      rfl
    · right
      rfl

lemma step_1_mem (tv : SignalAttributes → Option Errno) (b : Bool) (s : TIAState) :
    (TIA.Step tv b s).1.mem = (TIA.stepPreSignal b s).mem := by
  rcases step_1_cases tv b s with h | h <;> rw [h]

lemma step_1_videoCycles (tv : SignalAttributes → Option Errno) (b : Bool) (s : TIAState) :
    (TIA.Step tv b s).1.videoCycles = (TIA.stepPreSignal b s).videoCycles := by
  rcases step_1_cases tv b s with h | h <;> rw [h]

lemma step_1_hsync (tv : SignalAttributes → Option Errno) (b : Bool) (s : TIAState) :
    (TIA.Step tv b s).1.hsync = (TIA.stepPreSignal b s).hsync := by
  rcases step_1_cases tv b s with h | h <;> rw [h]

lemma step_1_delay (tv : SignalAttributes → Option Errno) (b : Bool) (s : TIAState) :
    (TIA.Step tv b s).1.delay = (TIA.stepPreSignal b s).delay := by
  rcases step_1_cases tv b s with h | h <;> rw [h]

lemma step_1_wsync (tv : SignalAttributes → Option Errno) (b : Bool) (s : TIAState) :
    (TIA.Step tv b s).1.wsync = (TIA.stepPreSignal b s).wsync := by
  rcases step_1_cases tv b s with h | h <;> rw [h]

lemma step_1_hmoveLatch (tv : SignalAttributes → Option Errno) (b : Bool) (s : TIAState) :
    (TIA.Step tv b s).1.hmoveLatch = (TIA.stepPreSignal b s).hmoveLatch := by
  rcases step_1_cases tv b s with h | h <;> rw [h]

lemma step_1_hmoveCt (tv : SignalAttributes → Option Errno) (b : Bool) (s : TIAState) :
    (TIA.Step tv b s).1.hmoveCt = (TIA.stepPreSignal b s).hmoveCt := by
  rcases step_1_cases tv b s with h | h <;> rw [h]

lemma step_1_sig_Pixel (tv : SignalAttributes → Option Errno) (b : Bool) (s : TIAState) :
    (TIA.Step tv b s).1.sig.Pixel = (TIA.stepPreSignal b s).sig.Pixel := by
  rcases step_1_cases tv b s with h | h <;> rw [h]

lemma step_1_sig_AltPixel (tv : SignalAttributes → Option Errno) (b : Bool) (s : TIAState) :
    (TIA.Step tv b s).1.sig.AltPixel = (TIA.stepPreSignal b s).sig.AltPixel := by
  rcases step_1_cases tv b s with h | h <;> rw [h]

lemma step_2_rdy (tv : SignalAttributes → Option Errno) (b : Bool) (s : TIAState) :
    (TIA.Step tv b s).2.1 = !(TIA.stepPreSignal b s).wsync := by
  simp only [TIA.Step]
  cases h : tv (TIA.stepPreSignal b s).sig
  · rfl
  · dsimp only
    split
    · rfl
    · rfl

/-! Projections of the pre-signal state down to `stepToVideo`. -/

lemma stepPreSignal_mem (b : Bool) (s : TIAState) :
    (TIA.stepPreSignal b s).mem = (TIA.stepToVideo b s).2.2.mem := by
  simp only [TIA.stepPreSignal]
  rw [audioStage_mem, serviceC_mem, pixelStage_mem]

lemma stepPreSignal_videoCycles (b : Bool) (s : TIAState) :
    (TIA.stepPreSignal b s).videoCycles = (TIA.stepToVideo b s).2.2.videoCycles := by
  simp only [TIA.stepPreSignal]
  rw [audioStage_videoCycles, serviceC_videoCycles, pixelStage_videoCycles]

lemma stepPreSignal_hsync (b : Bool) (s : TIAState) :
    (TIA.stepPreSignal b s).hsync = (TIA.stepToVideo b s).2.2.hsync := by
  simp only [TIA.stepPreSignal]
  rw [audioStage_hsync, serviceC_hsync, pixelStage_hsync]

lemma stepPreSignal_delay (b : Bool) (s : TIAState) :
    (TIA.stepPreSignal b s).delay = (TIA.stepToVideo b s).2.2.delay := by
  simp only [TIA.stepPreSignal]
  rw [audioStage_delay, serviceC_delay, pixelStage_delay]

lemma stepPreSignal_wsync (b : Bool) (s : TIAState) :
    (TIA.stepPreSignal b s).wsync = (TIA.stepToVideo b s).2.2.wsync := by
  simp only [TIA.stepPreSignal]
  rw [audioStage_wsync, serviceC_wsync, pixelStage_wsync]

lemma stepPreSignal_hmoveLatch (b : Bool) (s : TIAState) :
    (TIA.stepPreSignal b s).hmoveLatch = (TIA.stepToVideo b s).2.2.hmoveLatch := by
  simp only [TIA.stepPreSignal]
  rw [audioStage_hmoveLatch, serviceC_hmoveLatch, pixelStage_hmoveLatch]

lemma stepPreSignal_hmoveCt (b : Bool) (s : TIAState) :
    (TIA.stepPreSignal b s).hmoveCt = (TIA.stepToVideo b s).2.2.hmoveCt := by
  simp only [TIA.stepPreSignal]
  rw [audioStage_hmoveCt, serviceC_hmoveCt, pixelStage_hmoveCt]

lemma stepPreSignal_sig_Pixel (b : Bool) (s : TIAState) :
    (TIA.stepPreSignal b s).sig.Pixel
      = if (TIA.stepToVideo b s).2.2.hblank then ColorSignal.videoBlack
        else ColorSignal.color (Video.Pixel (TIA.stepToVideo b s).2.2.video).1 := by
  simp only [TIA.stepPreSignal]
  rw [audioStage_sig_Pixel, serviceC_sig, pixelStage_sig_Pixel]

lemma stepPreSignal_sig_AltPixel (b : Bool) (s : TIAState) :
    (TIA.stepPreSignal b s).sig.AltPixel
      = (Video.Pixel (TIA.stepToVideo b s).2.2.video).2 := by
  simp only [TIA.stepPreSignal]
  rw [audioStage_sig_AltPixel, serviceC_sig, pixelStage_sig_AltPixel]

/-! The color-clock pipeline with memory servicing off. -/

lemma stepToVideo_false (s : TIAState) :
    TIA.stepToVideo false s
      = (false, ⟨Reg.other, 0⟩,
          TIA.hmoveCtStage (TIA.spriteTickStage (TIA.hsyncSection
            (TIA.delayTick (TIA.pclkTickStage (TIA.videoCyclesInc s)))))) := rfl

lemma stepToVideo_false_mem (s : TIAState) :
    (TIA.stepToVideo false s).2.2.mem = s.mem := by
  rw [stepToVideo_false]
  rw [hmoveCtStage_mem, spriteTickStage_mem, hsyncSection_mem, delayTick_mem,
    pclkTickStage_mem, videoCyclesInc_mem]

lemma stepToVideo_false_videoCycles (s : TIAState) :
    (TIA.stepToVideo false s).2.2.videoCycles = s.videoCycles + 1 := by
  rw [stepToVideo_false]
  rw [hmoveCtStage_videoCycles, spriteTickStage_videoCycles, hsyncSection_videoCycles,
    delayTick_videoCycles, pclkTickStage_videoCycles, videoCyclesInc_videoCycles]

lemma stepToVideo_false_wsync (s : TIAState) :
    (TIA.stepToVideo false s).2.2.wsync = (s.wsync && !firesScanline s.delay) := by
  rw [stepToVideo_false]
  rw [hmoveCtStage_wsync, spriteTickStage_wsync, hsyncSection_wsync, delayTick_wsync,
    pclkTickStage_wsync, videoCyclesInc_wsync, pclkTickStage_delay, videoCyclesInc_delay]

/-! Field laws of the color-clock pipeline with memory servicing off. -/

lemma stepVideoCycle_mem (s : TIAState) : (TIA.StepVideoCycle s).1.mem = s.mem := by
  have h1 : (TIA.StepVideoCycle s).1 = (TIA.Step (fun _ => none) false s).1 := rfl
  rw [h1, step_1_mem, stepPreSignal_mem, stepToVideo_false_mem]

lemma stepVideoCycle_videoCycles (s : TIAState) :
    (TIA.StepVideoCycle s).1.videoCycles = s.videoCycles + 1 := by
  have h1 : (TIA.StepVideoCycle s).1 = (TIA.Step (fun _ => none) false s).1 := rfl
  rw [h1, step_1_videoCycles, stepPreSignal_videoCycles, stepToVideo_false_videoCycles]

lemma stepVideoCycle_wsync (s : TIAState) :
    (TIA.StepVideoCycle s).1.wsync = (s.wsync && !firesScanline s.delay) := by
  have h1 : (TIA.StepVideoCycle s).1 = (TIA.Step (fun _ => none) false s).1 := rfl
  rw [h1, step_1_wsync, stepPreSignal_wsync, stepToVideo_false_wsync]

lemma stepVideoCycle_rdy (s : TIAState) :
    (TIA.StepVideoCycle s).2 = !(TIA.StepVideoCycle s).1.wsync := by
  have h1 : (TIA.StepVideoCycle s).1 = (TIA.Step (fun _ => none) false s).1 := rfl
  have h2 : (TIA.StepVideoCycle s).2 = (TIA.Step (fun _ => none) false s).2.1 := rfl
  rw [h1, h2, step_2_rdy, step_1_wsync, stepPreSignal_wsync]

/-! RIOT step laws. -/

lemma riotUpdate_stepCount (r : RIOTState) : (RIOT.Update r).stepCount = r.stepCount := by
  unfold RIOT.Update
  rcases r.inbox with _ | ⟨nm, val⟩
  · rfl
  · cases nm <;> rfl

lemma timerStep_stepCount (r : RIOTState) : (Timer.Step r).stepCount = r.stepCount := by
  unfold Timer.Step
  dsimp only
  repeat' split
  all_goals rfl

lemma riotStep_stepCount (r : RIOTState) : (RIOT.Step r).stepCount = r.stepCount + 1 := by
  simp [RIOT.Step, timerStep_stepCount, riotUpdate_stepCount]

/-! Laws of the old-API memory-servicing call. -/

lemma readTIAMemory_videoCycles (t : TIAState) :
    (TIA.ReadTIAMemory t).videoCycles = t.videoCycles := by
  unfold TIA.ReadTIAMemory TIA.chipRead
  rcases t.mem.inbox with _ | ⟨nm, val⟩
  · rfl
  · cases nm <;> rfl

lemma readTIAMemory_mem (t : TIAState) :
    (TIA.ReadTIAMemory t).mem
      = ⟨none, t.mem.serviced ++
          (match t.mem.inbox with
           | some d => [(d, t.videoCycles)]
           | none => [])⟩ ∨
    (t.mem.inbox = none ∧ (TIA.ReadTIAMemory t).mem = t.mem) := by
  unfold TIA.ReadTIAMemory TIA.chipRead
  rcases h : t.mem.inbox with _ | ⟨nm, val⟩
  · exact Or.inr ⟨rfl, rfl⟩
  · left
    cases nm <;> rfl

end Gopher2600

namespace Gopher2600

/-! Laws of the per-CPU-cycle callback, built from one-step projection
laws of its phases. -/

lemma countCycle_regs (v : VCSState) : (countCycle v).regs = v.regs := rfl

lemma countCycle_rdyFlg (v : VCSState) : (countCycle v).rdyFlg = v.rdyFlg := rfl

lemma countCycle_tia (v : VCSState) : (countCycle v).tia = v.tia := rfl

lemma countCycle_riot (v : VCSState) : (countCycle v).riot = v.riot := rfl

lemma countCycle_cpuCycles (v : VCSState) : (countCycle v).cpuCycles = v.cpuCycles + 1 := rfl

lemma countCycle_videoCallbacks (v : VCSState) :
    (countCycle v).videoCallbacks = v.videoCallbacks := rfl

lemma riotReadPhase_regs (v : VCSState) : (riotReadPhase v).regs = v.regs := rfl

lemma riotReadPhase_rdyFlg (v : VCSState) : (riotReadPhase v).rdyFlg = v.rdyFlg := rfl

lemma riotReadPhase_tia (v : VCSState) : (riotReadPhase v).tia = v.tia := rfl

lemma riotReadPhase_riot (v : VCSState) :
    (riotReadPhase v).riot = RIOT.ReadRIOTMemory v.riot := rfl

lemma riotReadPhase_cpuCycles (v : VCSState) : (riotReadPhase v).cpuCycles = v.cpuCycles := rfl

lemma riotReadPhase_videoCallbacks (v : VCSState) :
    (riotReadPhase v).videoCallbacks = v.videoCallbacks := rfl

lemma riotStepPhase_regs (v : VCSState) : (riotStepPhase v).regs = v.regs := rfl

lemma riotStepPhase_rdyFlg (v : VCSState) : (riotStepPhase v).rdyFlg = v.rdyFlg := rfl

lemma riotStepPhase_tia (v : VCSState) : (riotStepPhase v).tia = v.tia := rfl

lemma riotStepPhase_riot (v : VCSState) : (riotStepPhase v).riot = RIOT.Step v.riot := rfl

lemma riotStepPhase_cpuCycles (v : VCSState) : (riotStepPhase v).cpuCycles = v.cpuCycles := rfl

lemma riotStepPhase_videoCallbacks (v : VCSState) :
    (riotStepPhase v).videoCallbacks = v.videoCallbacks := rfl

lemma cycleClock_regs (v : VCSState) : (cycleClock v).regs = v.regs := rfl

lemma cycleClock_rdyFlg (v : VCSState) :
    (cycleClock v).rdyFlg = (TIA.StepVideoCycle v.tia).2 := rfl

lemma cycleClock_tia (v : VCSState) :
    (cycleClock v).tia = (TIA.StepVideoCycle v.tia).1 := rfl

lemma cycleClock_riot (v : VCSState) : (cycleClock v).riot = v.riot := rfl

lemma cycleClock_cpuCycles (v : VCSState) : (cycleClock v).cpuCycles = v.cpuCycles := rfl

lemma cycleClock_videoCallbacks (v : VCSState) :
    (cycleClock v).videoCallbacks = v.videoCallbacks + 1 := rfl

lemma tiaMemPhase_regs (v : VCSState) : (tiaMemPhase v).regs = v.regs := rfl

lemma tiaMemPhase_rdyFlg (v : VCSState) : (tiaMemPhase v).rdyFlg = v.rdyFlg := rfl

lemma tiaMemPhase_tia (v : VCSState) : (tiaMemPhase v).tia = TIA.ReadTIAMemory v.tia := rfl

lemma tiaMemPhase_riot (v : VCSState) : (tiaMemPhase v).riot = v.riot := rfl

lemma tiaMemPhase_cpuCycles (v : VCSState) : (tiaMemPhase v).cpuCycles = v.cpuCycles := rfl

lemma tiaMemPhase_videoCallbacks (v : VCSState) :
    (tiaMemPhase v).videoCallbacks = v.videoCallbacks := rfl

lemma cycleVCS_regs (v : VCSState) : (cycleVCS v).regs = v.regs := by
  simp only [cycleVCS, cycleClock_regs, tiaMemPhase_regs, riotStepPhase_regs,
    riotReadPhase_regs, countCycle_regs]

lemma cycleVCS_cpuCycles (v : VCSState) : (cycleVCS v).cpuCycles = v.cpuCycles + 1 := by
  simp only [cycleVCS, cycleClock_cpuCycles, tiaMemPhase_cpuCycles, riotStepPhase_cpuCycles,
    riotReadPhase_cpuCycles, countCycle_cpuCycles]

lemma cycleVCS_videoCallbacks (v : VCSState) :
    (cycleVCS v).videoCallbacks = v.videoCallbacks + 3 := by
  simp only [cycleVCS, cycleClock_videoCallbacks, tiaMemPhase_videoCallbacks,
    riotStepPhase_videoCallbacks, riotReadPhase_videoCallbacks, countCycle_videoCallbacks]

lemma cycleVCS_riot (v : VCSState) :
    (cycleVCS v).riot = RIOT.Step (RIOT.ReadRIOTMemory v.riot) := by
  simp only [cycleVCS, cycleClock_riot, tiaMemPhase_riot, riotStepPhase_riot,
    riotReadPhase_riot, countCycle_riot]

lemma cycleVCS_tia (v : VCSState) :
    (cycleVCS v).tia
      = (TIA.StepVideoCycle
          (TIA.ReadTIAMemory (TIA.StepVideoCycle (TIA.StepVideoCycle v.tia).1).1)).1 := by
  simp only [cycleVCS, cycleClock_tia, tiaMemPhase_tia, riotStepPhase_tia,
    riotReadPhase_tia, countCycle_tia]

lemma cycleVCS_rdy_eq (v : VCSState) :
    (cycleVCS v).rdyFlg
      = (TIA.StepVideoCycle
          (TIA.ReadTIAMemory (TIA.StepVideoCycle (TIA.StepVideoCycle v.tia).1).1)).2 := by
  simp only [cycleVCS, cycleClock_rdyFlg, cycleClock_tia, tiaMemPhase_tia, riotStepPhase_tia,
    riotReadPhase_tia, countCycle_tia]

lemma cycleVCS_riot_stepCount (v : VCSState) :
    (cycleVCS v).riot.stepCount = v.riot.stepCount + 1 := by
  rw [cycleVCS_riot, riotStep_stepCount, RIOT.ReadRIOTMemory, riotUpdate_stepCount]

lemma cycleVCS_tia_videoCycles (v : VCSState) :
    (cycleVCS v).tia.videoCycles = v.tia.videoCycles + 3 := by
  rw [cycleVCS_tia, stepVideoCycle_videoCycles, readTIAMemory_videoCycles,
    stepVideoCycle_videoCycles, stepVideoCycle_videoCycles]

lemma cycleVCS_rdyFlg (v : VCSState) :
    (cycleVCS v).rdyFlg = !(cycleVCS v).tia.wsync := by
  rw [cycleVCS_rdy_eq, cycleVCS_tia, stepVideoCycle_rdy]

lemma cycleVCS_tia_mem (v : VCSState) :
    (cycleVCS v).tia.mem.inbox = none ∧
    (cycleVCS v).tia.mem.serviced
      = v.tia.mem.serviced ++
        (match v.tia.mem.inbox with
         | some d => [(d, v.tia.videoCycles + 2)]
         | none => []) := by
  have hx : (cycleVCS v).tia.mem
      = (TIA.ReadTIAMemory ((TIA.StepVideoCycle (TIA.StepVideoCycle v.tia).1).1)).mem := by
    rw [cycleVCS_tia, stepVideoCycle_mem]
  have hXmem : ((TIA.StepVideoCycle (TIA.StepVideoCycle v.tia).1).1).mem = v.tia.mem := by
    rw [stepVideoCycle_mem, stepVideoCycle_mem]
  have hXvc : ((TIA.StepVideoCycle (TIA.StepVideoCycle v.tia).1).1).videoCycles
      = v.tia.videoCycles + 2 := by
    rw [stepVideoCycle_videoCycles, stepVideoCycle_videoCycles]
  rcases readTIAMemory_mem ((TIA.StepVideoCycle (TIA.StepVideoCycle v.tia).1).1) with h | ⟨hi, h⟩
  · rw [hXmem, hXvc] at h
    rw [hx, h]
    exact ⟨rfl, rfl⟩
  · rw [hXmem] at hi
    rw [hXmem] at h
    rw [hx, h, hi]
    simp

end Gopher2600

namespace Gopher2600

/-! Iteration and drain-loop laws for the stepper. -/

lemma iterate_cpuCycles (k : Nat) (v : VCSState) :
    (cycleVCS^[k] v).cpuCycles = v.cpuCycles + k := by
  induction k generalizing v with
  | zero => simp
  | succ k ih =>
      rw [Function.iterate_succ_apply, ih, cycleVCS_cpuCycles]
      omega

lemma iterate_videoCallbacks (k : Nat) (v : VCSState) :
    (cycleVCS^[k] v).videoCallbacks = v.videoCallbacks + 3 * k := by
  induction k generalizing v with
  | zero => simp
  | succ k ih =>
      rw [Function.iterate_succ_apply, ih, cycleVCS_videoCallbacks]
      omega

lemma drainVCS_counts (fuel : Nat) (v : VCSState)
    (h : v.videoCallbacks = 3 * v.cpuCycles) :
    (drainVCS fuel v).videoCallbacks = 3 * (drainVCS fuel v).cpuCycles := by
  induction fuel generalizing v with
  | zero => exact h
  | succ fuel ih =>
      rw [drainVCS]
      split
      · exact h
      · refine ih (cycleVCS v) ?_
        rw [cycleVCS_videoCallbacks, cycleVCS_cpuCycles, h]
        omega

lemma drainVCS_regs (fuel : Nat) (v : VCSState) : (drainVCS fuel v).regs = v.regs := by
  induction fuel generalizing v with
  | zero => rfl
  | succ fuel ih =>
      rw [drainVCS]
      split
      · rfl
      · rw [ih, cycleVCS_regs]

/-- C1 (counterexample): in `cycleVCS` of src/hardware/vcs.go a pending
TIA chip write — here a WSYNC write — is *not* serviced at the first
color clock: the first `StepVideoCycle` leaves the inbox untouched, and
the single service of the cycle happens when the TIA's video-cycle
count is 2, i.e. after the second of the three color clocks, not at the
first.  This contradicts the claimed `service_memory=true,false,true`
pattern. -/
theorem cycleVCS_service_counterexample :
    vcsW.tia.mem.inbox = some ⟨Reg.WSYNC, 0⟩ ∧
    (TIA.StepVideoCycle vcsW.tia).1.mem.inbox = some ⟨Reg.WSYNC, 0⟩ ∧
    (cycleVCS vcsW).tia.mem.serviced = [(⟨Reg.WSYNC, 0⟩, 2)] ∧
    (cycleVCS vcsW).tia.videoCycles = 3 := by
  refine ⟨rfl, ?_, ?_, ?_⟩ <;> decide

/-- C1 (amended): for every CPU cycle driven by `cycleVCS`, the RIOT
steps exactly once and the TIA steps exactly three times (three color
clocks, with the video-cycle callback invoked after each); the TIA
chip-write inbox is serviced once per CPU cycle, between the second and
the third color clock, so a pending CPU chip write is consumed at most
once (exactly once when one is pending, never when the inbox is
empty), and the inbox is empty afterwards. -/
theorem cycleVCS_schedule (v : VCSState) :
    (cycleVCS v).riot.stepCount = v.riot.stepCount + 1 ∧
    (cycleVCS v).tia.videoCycles = v.tia.videoCycles + 3 ∧
    (cycleVCS v).videoCallbacks = v.videoCallbacks + 3 ∧
    (cycleVCS v).tia.mem.inbox = none ∧
    (cycleVCS v).tia.mem.serviced
      = v.tia.mem.serviced ++
        (match v.tia.mem.inbox with
         | some d => [(d, v.tia.videoCycles + 2)]
         | none => []) :=
  ⟨cycleVCS_riot_stepCount v, cycleVCS_tia_videoCycles v, cycleVCS_videoCallbacks v,
    (cycleVCS_tia_mem v).1, (cycleVCS_tia_mem v).2⟩

/-- C3: for every instruction executed via `VCS.Step`, the number of
video-cycle callback invocations (color clocks emitted to the
television) equals exactly three times the number of CPU cycles
consumed, where the cycle count includes the cycles added by the
drain loop while RDY is held low (WSYNC stretching). -/
theorem vcsStep_three_clocks_per_cycle (k fuel : Nat) (v : VCSState) :
    (VCS.Step k fuel v).videoCallbacks = 3 * (VCS.Step k fuel v).cpuCycles := by
  simp only [VCS.Step]
  refine drainVCS_counts fuel _ ?_
  rw [iterate_videoCallbacks, iterate_cpuCycles]
  simp

/-- C2: while RDY is low the drain loop of `VCS.Step` keeps cycling the
hardware without touching the CPU: (1) the drain loop never changes the
CPU registers; (2) it stops immediately when RDY is high; (3) while RDY
is low it performs one further `cycleVCS` per iteration; (4) each
`cycleVCS` steps the RIOT once and the TIA three color clocks and
leaves the CPU registers unchanged; (5) the RDY flag after a cycle is
the negation of the TIA's WSYNC flag; and (6) a color clock clears
WSYNC exactly when a start-of-next-scanline event fires from the delay
queue, so RDY returns high at the start of the next scanline. -/
theorem vcsStep_rdy_drain :
    (∀ fuel v, (drainVCS fuel v).regs = v.regs) ∧
    (∀ fuel v, v.rdyFlg = true → drainVCS fuel v = v) ∧
    (∀ fuel v, v.rdyFlg = false → drainVCS (fuel + 1) v = drainVCS fuel (cycleVCS v)) ∧
    (∀ v, (cycleVCS v).riot.stepCount = v.riot.stepCount + 1 ∧
          (cycleVCS v).tia.videoCycles = v.tia.videoCycles + 3 ∧
          (cycleVCS v).regs = v.regs) ∧
    (∀ v, (cycleVCS v).rdyFlg = !(cycleVCS v).tia.wsync) ∧
    (∀ s, (TIA.StepVideoCycle s).1.wsync = (s.wsync && !firesScanline s.delay)) := by
  refine ⟨drainVCS_regs, ?_, ?_, ?_, cycleVCS_rdyFlg, stepVideoCycle_wsync⟩
  · intro fuel v h
    cases fuel <;> simp [drainVCS, h]
  · intro fuel v h
    simp [drainVCS, h]
  · intro v
    exact ⟨cycleVCS_riot_stepCount v, cycleVCS_tia_videoCycles v, cycleVCS_regs v⟩

/-- Witness for C2: the drain-loop laws applied at concrete states (one
with RDY high, one with RDY low). -/
theorem vcsStep_rdy_drain_witness :
    (drainVCS 5 vcsEx).regs = vcsEx.regs ∧
    drainVCS 5 vcsEx = vcsEx ∧
    drainVCS 1 vcsLow = drainVCS 0 (cycleVCS vcsLow) :=
  ⟨vcsStep_rdy_drain.1 5 vcsEx, vcsStep_rdy_drain.2.1 5 vcsEx rfl,
    vcsStep_rdy_drain.2.2.1 0 vcsLow rfl⟩

end Gopher2600

namespace Gopher2600

/-! Frame lemmas for the phase-C service functions (they only touch the
video and audio sub-states). -/

lemma updateSpriteHMOVE_frame (d : ChipData) (t : TIAState) :
    (Video.UpdateSpriteHMOVE d t).2.sig = t.sig ∧
    (Video.UpdateSpriteHMOVE d t).2.hsync = t.hsync ∧
    (Video.UpdateSpriteHMOVE d t).2.hmoveLatch = t.hmoveLatch ∧
    (Video.UpdateSpriteHMOVE d t).2.hmoveCt = t.hmoveCt ∧
    (Video.UpdateSpriteHMOVE d t).2.delay = t.delay ∧
    (Video.UpdateSpriteHMOVE d t).2.wsync = t.wsync ∧
    (Video.UpdateSpriteHMOVE d t).2.hblank = t.hblank ∧
    (Video.UpdateSpriteHMOVE d t).2.audio = t.audio := by
  rcases d with ⟨nm, val⟩
  cases nm <;> exact ⟨rfl, rfl, rfl, rfl, rfl, rfl, rfl, rfl⟩

lemma updateSpriteVariations_frame (d : ChipData) (t : TIAState) :
    (Video.UpdateSpriteVariations d t).2.sig = t.sig ∧
    (Video.UpdateSpriteVariations d t).2.hsync = t.hsync ∧
    (Video.UpdateSpriteVariations d t).2.hmoveLatch = t.hmoveLatch ∧
    (Video.UpdateSpriteVariations d t).2.hmoveCt = t.hmoveCt ∧
    (Video.UpdateSpriteVariations d t).2.delay = t.delay ∧
    (Video.UpdateSpriteVariations d t).2.wsync = t.wsync ∧
    (Video.UpdateSpriteVariations d t).2.hblank = t.hblank ∧
    (Video.UpdateSpriteVariations d t).2.audio = t.audio := by
  rcases d with ⟨nm, val⟩
  cases nm <;> exact ⟨rfl, rfl, rfl, rfl, rfl, rfl, rfl, rfl⟩

lemma updateSpritePixels_frame (d : ChipData) (t : TIAState) :
    (Video.UpdateSpritePixels d t).2.sig = t.sig ∧
    (Video.UpdateSpritePixels d t).2.hsync = t.hsync ∧
    (Video.UpdateSpritePixels d t).2.hmoveLatch = t.hmoveLatch ∧
    (Video.UpdateSpritePixels d t).2.hmoveCt = t.hmoveCt ∧
    (Video.UpdateSpritePixels d t).2.delay = t.delay ∧
    (Video.UpdateSpritePixels d t).2.wsync = t.wsync ∧
    (Video.UpdateSpritePixels d t).2.hblank = t.hblank ∧
    (Video.UpdateSpritePixels d t).2.audio = t.audio := by
  rcases d with ⟨nm, val⟩
  cases nm <;> exact ⟨rfl, rfl, rfl, rfl, rfl, rfl, rfl, rfl⟩

lemma audioUpdateRegisters_frame (d : ChipData) (t : TIAState) :
    (Audio.UpdateRegisters d t).2.sig = t.sig ∧
    (Audio.UpdateRegisters d t).2.hsync = t.hsync ∧
    (Audio.UpdateRegisters d t).2.hmoveLatch = t.hmoveLatch ∧
    (Audio.UpdateRegisters d t).2.hmoveCt = t.hmoveCt ∧
    (Audio.UpdateRegisters d t).2.delay = t.delay ∧
    (Audio.UpdateRegisters d t).2.wsync = t.wsync ∧
    (Audio.UpdateRegisters d t).2.hblank = t.hblank := by
  rcases d with ⟨nm, val⟩
  cases nm <;> exact ⟨rfl, rfl, rfl, rfl, rfl, rfl, rfl⟩

end Gopher2600

namespace Gopher2600

/-! Conditional laws of the phase-A and phase-B service functions. -/

lemma serviceA_pclk (sm : Bool) (t : TIAState) : (TIA.serviceA sm t).2.2.pclk = t.pclk := by
  cases sm
  · rfl
  · rcases hi : t.mem.inbox with _ | ⟨nm, val⟩ <;>
      simp only [TIA.serviceA, TIA.chipRead, hi] <;>
      first
        | rfl
        | (cases nm <;> rfl)

lemma serviceA_videoCycles (sm : Bool) (t : TIAState) :
    (TIA.serviceA sm t).2.2.videoCycles = t.videoCycles := by
  cases sm
  · rfl
  · rcases hi : t.mem.inbox with _ | ⟨nm, val⟩ <;>
      simp only [TIA.serviceA, TIA.chipRead, hi] <;>
      first
        | rfl
        | (cases nm <;> rfl)

lemma serviceA_hblank (sm : Bool) (t : TIAState) :
    (TIA.serviceA sm t).2.2.hblank = t.hblank := by
  cases sm
  · rfl
  · rcases hi : t.mem.inbox with _ | ⟨nm, val⟩ <;>
      simp only [TIA.serviceA, TIA.chipRead, hi] <;>
      first
        | rfl
        | (cases nm <;> rfl)

lemma serviceA_hmoveLatch (sm : Bool) (t : TIAState) :
    (TIA.serviceA sm t).2.2.hmoveLatch = t.hmoveLatch := by
  cases sm
  · rfl
  · rcases hi : t.mem.inbox with _ | ⟨nm, val⟩ <;>
      simp only [TIA.serviceA, TIA.chipRead, hi] <;>
      first
        | rfl
        | (cases nm <;> rfl)

lemma serviceA_hmoveCt (sm : Bool) (t : TIAState) :
    (TIA.serviceA sm t).2.2.hmoveCt = t.hmoveCt := by
  cases sm
  · rfl
  · rcases hi : t.mem.inbox with _ | ⟨nm, val⟩ <;>
      simp only [TIA.serviceA, TIA.chipRead, hi] <;>
      first
        | rfl
        | (cases nm <;> rfl)

lemma serviceA_hsync (sm : Bool) (t : TIAState) (h : rsyncFree sm t = true) :
    (TIA.serviceA sm t).2.2.hsync = t.hsync := by
  cases sm
  · rfl
  · rcases hi : t.mem.inbox with _ | ⟨nm, val⟩
    · simp [TIA.serviceA, TIA.chipRead, hi]
    · simp only [rsyncFree, hi, Bool.not_true, Bool.false_or] at h
      simp only [TIA.serviceA, TIA.chipRead, hi]
      cases nm <;> simp_all [TIA.UpdateTIA, Video.UpdatePlayfield, TIA.schedule]

lemma serviceA_rsyncEvent (sm : Bool) (t : TIAState) (h : rsyncFree sm t = true) :
    (TIA.serviceA sm t).2.2.rsyncEvent = t.rsyncEvent := by
  cases sm
  · rfl
  · rcases hi : t.mem.inbox with _ | ⟨nm, val⟩
    · simp [TIA.serviceA, TIA.chipRead, hi]
    · simp only [rsyncFree, hi, Bool.not_true, Bool.false_or] at h
      simp only [TIA.serviceA, TIA.chipRead, hi]
      cases nm <;> simp_all [TIA.UpdateTIA, Video.UpdatePlayfield, TIA.schedule]

lemma serviceA_delay_anyfalse (p : Nat × DelayTarget → Bool) (sm : Bool) (t : TIAState)
    (hq : t.delay.any p = false)
    (h1 : p (hsyncDelay, DelayTarget.rsyncReset) = false)
    (h2 : p (delayHMOVELatch, DelayTarget.hmoveLatchOn) = false)
    (h3 : ∀ r v, p (delayPlayfieldWrite, DelayTarget.pfCommit r v) = false) :
    (TIA.serviceA sm t).2.2.delay.any p = false := by
  cases sm
  · exact hq
  · rcases hi : t.mem.inbox with _ | ⟨nm, val⟩
    · have : (TIA.serviceA true t).2.2.delay = t.delay := by
        simp [TIA.serviceA, TIA.chipRead, hi]
      rw [this]
      exact hq
    · cases nm <;>
        simp_all [TIA.serviceA, TIA.chipRead, TIA.UpdateTIA, Video.UpdatePlayfield,
          TIA.schedule, schedule_any, filter_any_false _ p _ hq]

lemma serviceB_hsync (sm : Bool) (d : ChipData) (t : TIAState) :
    (TIA.serviceB sm d t).2.hsync = t.hsync := (serviceB_frame sm d t).2.2.2.1

lemma serviceB_pclk (sm : Bool) (d : ChipData) (t : TIAState) :
    (TIA.serviceB sm d t).2.pclk = t.pclk := (serviceB_frame sm d t).2.2.1

lemma serviceB_hmoveLatch (sm : Bool) (d : ChipData) (t : TIAState) :
    (TIA.serviceB sm d t).2.hmoveLatch = t.hmoveLatch :=
  (serviceB_frame sm d t).2.2.2.2.2.2.1

lemma serviceB_hmoveCt (sm : Bool) (d : ChipData) (t : TIAState) :
    (TIA.serviceB sm d t).2.hmoveCt = t.hmoveCt :=
  (serviceB_frame sm d t).2.2.2.2.2.2.2.1

lemma serviceB_delay_mem (sm : Bool) (d : ChipData) (t : TIAState) (n : Nat) (u : DelayTarget)
    (h : (n, u) ∈ t.delay) (hne : DelayTarget.sameTag u DelayTarget.resetSprite = false) :
    (n, u) ∈ (TIA.serviceB sm d t).2.delay := by
  cases sm
  · exact h
  · rcases d with ⟨nm, val⟩
    cases nm <;>
      first
        | exact h
        | (simp only [TIA.serviceB, Video.UpdateSpritePositioning, Video.UpdateColor,
            TIA.schedule]
           exact schedule_mem_of_sameTag_false n _ u _ t.delay h hne)

lemma serviceB_delay_anyfalse (p : Nat × DelayTarget → Bool) (sm : Bool) (d : ChipData)
    (t : TIAState) (hq : t.delay.any p = false)
    (h1 : ∀ n, p (n, DelayTarget.resetSprite) = false) :
    (TIA.serviceB sm d t).2.delay.any p = false := by
  cases sm
  · exact hq
  · rcases d with ⟨nm, val⟩
    cases nm <;>
      first
        | exact hq
        | (simp only [TIA.serviceB, Video.UpdateSpritePositioning, Video.UpdateColor,
            TIA.schedule]
           exact schedule_any_false p _ _ _ hq (h1 _))

end Gopher2600

namespace Gopher2600

/-! Decode lemmas for the HSYNC section. -/

lemma hsyncSection_newScanline_sched (s : TIAState) (hp : PhaseClock.Phi2 s.pclk = true)
    (hh : s.hsync = 55) (hr : s.rsyncEvent = false) :
    (hsyncDelay, DelayTarget.newScanline) ∈ (TIA.hsyncSection s).delay := by
  unfold TIA.hsyncSection TIA.schedule
  dsimp only
  simp only [hp, if_true, hh, hr]
  norm_num
  exact schedule_mem_self hsyncDelay DelayTarget.newScanline s.delay

lemma hsyncSection_decode16_sched (s : TIAState) (hp : PhaseClock.Phi2 s.pclk = true)
    (hh : s.hsync = 15) (hl : s.hmoveLatch = false) :
    (TIA.hsyncSection s).delay
      = DelayQueue.schedule hsyncDelay DelayTarget.resetHBlank s.delay := by
  unfold TIA.hsyncSection TIA.schedule
  dsimp only
  simp [hp, hh, hl]

lemma hsyncSection_decode16_skip (s : TIAState) (hp : PhaseClock.Phi2 s.pclk = true)
    (hh : s.hsync = 15) (hl : s.hmoveLatch = true) :
    (TIA.hsyncSection s).delay = s.delay := by
  unfold TIA.hsyncSection TIA.schedule
  dsimp only
  simp [hp, hh, hl]

lemma hsyncSection_decode18_sched (s : TIAState) (hp : PhaseClock.Phi2 s.pclk = true)
    (hh : s.hsync = 17) (hl : s.hmoveLatch = true) :
    (TIA.hsyncSection s).delay
      = DelayQueue.schedule hsyncDelay DelayTarget.resetHBlank s.delay := by
  unfold TIA.hsyncSection TIA.schedule
  dsimp only
  simp [hp, hh, hl]

lemma hsyncSection_decode18_skip (s : TIAState) (hp : PhaseClock.Phi2 s.pclk = true)
    (hh : s.hsync = 17) (hl : s.hmoveLatch = false) :
    (TIA.hsyncSection s).delay = s.delay := by
  unfold TIA.hsyncSection TIA.schedule
  dsimp only
  simp [hp, hh, hl]

end Gopher2600

namespace Gopher2600

/-! Characterizations of the color-clock pipeline for arbitrary memory
servicing. -/

lemma stepToVideo_2_2 (b : Bool) (s : TIAState) :
    (TIA.stepToVideo b s).2.2
      = TIA.hmoveCtStage (TIA.spriteTickStage
          (TIA.serviceB (TIA.serviceA b (TIA.videoCyclesInc s)).1
            (TIA.serviceA b (TIA.videoCyclesInc s)).2.1
            (TIA.hsyncSection (TIA.delayTick
              (TIA.pclkTickStage (TIA.serviceA b (TIA.videoCyclesInc s)).2.2)))).2) := rfl

lemma stepToVideo_hsync (b : Bool) (s : TIAState) (h : rsyncFree b s = true) :
    (TIA.stepToVideo b s).2.2.hsync
      = if PhaseClock.Phi2 (PhaseClock.tick s.pclk) then
          (if s.hsync + 1 == 57 then 0 else s.hsync + 1)
        else s.hsync := by
  rw [stepToVideo_2_2, hmoveCtStage_hsync, spriteTickStage_hsync, serviceB_hsync,
    hsyncSection_hsync, delayTick_pclk, pclkTickStage_pclk, serviceA_pclk, videoCyclesInc_pclk,
    delayTick_hsync, pclkTickStage_hsync, serviceA_hsync b (TIA.videoCyclesInc s) h, videoCyclesInc_hsync]

lemma stepToVideo_hmoveLatch_wrap (b : Bool) (s : TIAState) (h : rsyncFree b s = true)
    (hp : PhaseClock.Phi2 (PhaseClock.tick s.pclk) = true) (hh : s.hsync = 56) :
    (TIA.stepToVideo b s).2.2.hmoveLatch = false := by
  rw [stepToVideo_2_2, hmoveCtStage_hmoveLatch, spriteTickStage_hmoveLatch,
    serviceB_hmoveLatch, hsyncSection_hmoveLatch, delayTick_pclk, pclkTickStage_pclk,
    serviceA_pclk, videoCyclesInc_pclk, delayTick_hsync, pclkTickStage_hsync,
    serviceA_hsync b (TIA.videoCyclesInc s) h, videoCyclesInc_hsync, hp, hh]
  norm_num

lemma stepToVideo_newScanline (b : Bool) (s : TIAState) (h : rsyncFree b s = true)
    (hp : PhaseClock.Phi2 (PhaseClock.tick s.pclk) = true) (hh : s.hsync = 55)
    (hr : s.rsyncEvent = false) :
    (hsyncDelay, DelayTarget.newScanline) ∈ (TIA.stepToVideo b s).2.2.delay := by
  rw [stepToVideo_2_2, hmoveCtStage_delay, spriteTickStage_delay]
  refine serviceB_delay_mem _ _ _ _ _ ?_ rfl
  refine hsyncSection_newScanline_sched _ ?_ ?_ ?_
  · rw [delayTick_pclk, pclkTickStage_pclk, serviceA_pclk, videoCyclesInc_pclk]
    exact hp
  · rw [delayTick_hsync, pclkTickStage_hsync, serviceA_hsync b (TIA.videoCyclesInc s) h, videoCyclesInc_hsync]
    exact hh
  · refine delayTick_rsyncEvent_false _ ?_
    rw [pclkTickStage_rsyncEvent, serviceA_rsyncEvent b (TIA.videoCyclesInc s) h, videoCyclesInc_rsyncEvent]
    exact hr

lemma stepToVideo_hmoveCt (b : Bool) (s : TIAState)
    (hq : firesHmoveLatch s.delay = false) :
    (TIA.stepToVideo b s).2.2.hmoveCt
      = if PhaseClock.Phi2 (PhaseClock.tick s.pclk) && !(s.hmoveCt == 255) then
          (s.hmoveCt + 255) % 256
        else s.hmoveCt := by
  have hfl : firesHmoveLatch (TIA.pclkTickStage
      (TIA.serviceA b (TIA.videoCyclesInc s)).2.2).delay = false := by
    rw [show (TIA.pclkTickStage (TIA.serviceA b (TIA.videoCyclesInc s)).2.2).delay
          = (TIA.serviceA b (TIA.videoCyclesInc s)).2.2.delay from rfl]
    refine serviceA_delay_anyfalse _ b _ hq rfl rfl ?_
    intro r v
    rfl
  rw [stepToVideo_2_2, hmoveCtStage_hmoveCt, spriteTickStage_pclk, spriteTickStage_hmoveCt,
    serviceB_pclk, serviceB_hmoveCt, hsyncSection_pclk, hsyncSection_hmoveCt,
    delayTick_pclk, delayTick_hmoveCt _ hfl, pclkTickStage_pclk, pclkTickStage_hmoveCt,
    serviceA_pclk, serviceA_hmoveCt, videoCyclesInc_pclk, videoCyclesInc_hmoveCt]

end Gopher2600

namespace Gopher2600

/-- C4: away from RSYNC writes, the HSYNC counter of a TIA step ticks
only on the rising edge of Φ2 and runs 0,1,…,56,0,…: it is unchanged
off Φ2, incremented when below 56, and reset to 0 when it would reach
57 — at which wrap the hmoveLatch flag is also cleared; the counter
stays in 0..56; and from the count-56 decode (reached from 55) the
new-scanline event is scheduled with the 3-clock latch delay when no
RSYNC is in flight. -/
theorem tia_hsync_cycle (tv : SignalAttributes → Option Errno) (b : Bool) (s : TIAState)
    (h1 : rsyncFree b s = true) (h2 : s.hsync ≤ 56) (h3 : s.rsyncEvent = false) :
    (PhaseClock.Phi2 (PhaseClock.tick s.pclk) = false →
        (TIA.Step tv b s).1.hsync = s.hsync) ∧
    (PhaseClock.Phi2 (PhaseClock.tick s.pclk) = true → s.hsync < 56 →
        (TIA.Step tv b s).1.hsync = s.hsync + 1) ∧
    (PhaseClock.Phi2 (PhaseClock.tick s.pclk) = true → s.hsync = 56 →
        (TIA.Step tv b s).1.hsync = 0 ∧ (TIA.Step tv b s).1.hmoveLatch = false) ∧
    (TIA.Step tv b s).1.hsync ≤ 56 ∧
    (PhaseClock.Phi2 (PhaseClock.tick s.pclk) = true → s.hsync = 55 →
        (hsyncDelay, DelayTarget.newScanline) ∈ (TIA.Step tv b s).1.delay) := by
  have hs : (TIA.Step tv b s).1.hsync
      = if PhaseClock.Phi2 (PhaseClock.tick s.pclk) then
          (if s.hsync + 1 == 57 then 0 else s.hsync + 1)
        else s.hsync := by
    rw [step_1_hsync, stepPreSignal_hsync, stepToVideo_hsync b s h1]
  refine ⟨?_, ?_, ?_, ?_, ?_⟩
  · intro hp
    rw [hs, hp]
    simp
  · intro hp hlt
    have h57 : (s.hsync + 1 == 57) = false := by
      simp only [beq_eq_false_iff_ne, ne_eq]
      omega
    rw [hs, hp, h57]
    simp
  · intro hp h56
    constructor
    · rw [hs, hp, h56]
      simp
    · rw [step_1_hmoveLatch, stepPreSignal_hmoveLatch,
        stepToVideo_hmoveLatch_wrap b s h1 hp h56]
  · rw [hs]
    split
    · split
      · norm_num
      · next h57 =>
          have : s.hsync + 1 ≠ 57 := by simpa using h57
          omega
    · exact h2
  · intro hp hh
    rw [step_1_delay, stepPreSignal_delay]
    exact stepToVideo_newScanline b s h1 hp hh h3

/-- Witness for C4: at a concrete state one clock before the count-56
decode, the theorem yields the scheduled new-scanline event and the
0..56 bound. -/
theorem tia_hsync_cycle_witness :
    ((hsyncDelay, DelayTarget.newScanline)
        ∈ (TIA.Step (fun _ => none) false tiaC4).1.delay) ∧
    (TIA.Step (fun _ => none) false tiaC4).1.hsync ≤ 56 :=
  ⟨(tia_hsync_cycle (fun _ => none) false tiaC4 rfl (by decide) rfl).2.2.2.2 rfl rfl,
    (tia_hsync_cycle (fun _ => none) false tiaC4 rfl (by decide) rfl).2.2.2.1⟩

/-- C10: in a TIA step in which no delayed HMOVE-latch event fires, the
HMOVE extra-clocks counter is decremented (8-bit) exactly on the Φ2
phase and only when its current value is not 0xff; consequently 0xff is
absorbing — a step maps 0xff to 0xff — until an HMOVE write charges the
counter again through the delay queue. -/
theorem tia_hmoveCt_absorbing (tv : SignalAttributes → Option Errno) (b : Bool) (s : TIAState)
    (hq : firesHmoveLatch s.delay = false) :
    ((TIA.Step tv b s).1.hmoveCt
      = if PhaseClock.Phi2 (PhaseClock.tick s.pclk) && !(s.hmoveCt == 255) then
          (s.hmoveCt + 255) % 256
        else s.hmoveCt) ∧
    (s.hmoveCt = 255 → (TIA.Step tv b s).1.hmoveCt = 255) := by
  have hmain : (TIA.Step tv b s).1.hmoveCt
      = if PhaseClock.Phi2 (PhaseClock.tick s.pclk) && !(s.hmoveCt == 255) then
          (s.hmoveCt + 255) % 256
        else s.hmoveCt := by
    rw [step_1_hmoveCt, stepPreSignal_hmoveCt, stepToVideo_hmoveCt b s hq]
  refine ⟨hmain, fun h255 => ?_⟩
  rw [hmain, h255]
  simp

/-- Witness for C10: a step at the example state (hmoveCt = 0xff, empty
delay queue) leaves the counter at 0xff. -/
theorem tia_hmoveCt_absorbing_witness :
    (TIA.Step (fun _ => none) false tiaEx).1.hmoveCt = 255 :=
  (tia_hmoveCt_absorbing (fun _ => none) false tiaEx rfl).2 rfl

/-- C6: on every TIA color-clock step, the AltPixel of the emitted
signal carries the resolved debug colour regardless of HBLANK, while
the Pixel is the VideoBlack sentinel when the hblank flag (as read at
the pixel-resolution point of the step) is set and the resolved colour
otherwise. -/
theorem tia_pixel_videoblack (tv : SignalAttributes → Option Errno) (b : Bool) (s : TIAState) :
    (TIA.Step tv b s).1.sig.AltPixel
      = (Video.Pixel (TIA.stepToVideo b s).2.2.video).2 ∧
    (TIA.Step tv b s).1.sig.Pixel
      = (if (TIA.stepToVideo b s).2.2.hblank then VideoBlack
         else ColorSignal.color (Video.Pixel (TIA.stepToVideo b s).2.2.video).1) := by
  constructor
  · rw [step_1_sig_AltPixel, stepPreSignal_sig_AltPixel]
  · rw [step_1_sig_Pixel, stepPreSignal_sig_Pixel]
    rfl

/-- C7: the TIA step returns the television's error unless it is
`TVOutOfSpec`, which is swallowed: the step then completes normally
(the state is the pre-signal state with `HSyncSimple` reset, as on the
no-error path) and reports no error, so the stepper keeps running. -/
theorem tia_tv_error_policy (tv : SignalAttributes → Option Errno) (b : Bool) (s : TIAState) :
    ((TIA.Step tv b s).2.2
      = (if tv (TIA.stepPreSignal b s).sig = some Errno.TVOutOfSpec then none
         else tv (TIA.stepPreSignal b s).sig)) ∧
    (tv (TIA.stepPreSignal b s).sig = some Errno.TVOutOfSpec →
      (TIA.Step tv b s).2.2 = none ∧
      (TIA.Step tv b s).1 = {TIA.stepPreSignal b s with sig.HSyncSimple := false}) := by
  constructor
  · simp only [TIA.Step]
    cases h : tv (TIA.stepPreSignal b s).sig with
    | none => simp [h]
    | some e =>
        by_cases he : e = Errno.TVOutOfSpec <;> simp [h, he]
  · intro h
    simp only [TIA.Step]
    rw [h]
    simp

/-- Witness for C7: with a television that always reports
`TVOutOfSpec`, the step at the example state swallows the error. -/
theorem tia_tv_error_policy_witness :
    (TIA.Step (fun _ => some Errno.TVOutOfSpec) false tiaEx).2.2 = none ∧
    (TIA.Step (fun _ => some Errno.TVOutOfSpec) false tiaEx).1
      = {TIA.stepPreSignal false tiaEx with sig.HSyncSimple := false} :=
  (tia_tv_error_policy (fun _ => some Errno.TVOutOfSpec) false tiaEx).2 rfl

end Gopher2600

namespace Gopher2600

/-- C5: on the Φ2 rising edge (with no RSYNC write serviced, no delayed
HMOVE-latch event about to fire, and no reset-HBlank entry already in
the delay queue), the decode at HSYNC count 16 schedules the
HBlank-off event (3-clock latch delay) if and only if hmoveLatch is
clear, and the decode at count 18 schedules it if and only if
hmoveLatch is set. -/
theorem tia_hblank_decode (tv : SignalAttributes → Option Errno) (b : Bool) (s : TIAState)
    (h1 : rsyncFree b s = true) (hA : noResetHBlank s.delay = true)
    (hB : firesHmoveLatch s.delay = false)
    (hp : PhaseClock.Phi2 (PhaseClock.tick s.pclk) = true) :
    (s.hsync = 15 → (((hsyncDelay, DelayTarget.resetHBlank) ∈ (TIA.Step tv b s).1.delay)
        ↔ s.hmoveLatch = false)) ∧
    (s.hsync = 17 → (((hsyncDelay, DelayTarget.resetHBlank) ∈ (TIA.Step tv b s).1.delay)
        ↔ s.hmoveLatch = true)) := by
  set A := TIA.serviceA b (TIA.videoCyclesInc s) with hAdef
  set Y := TIA.delayTick (TIA.pclkTickStage A.2.2) with hYdef
  have hApclk : A.2.2.pclk = s.pclk := by
    rw [hAdef, serviceA_pclk, videoCyclesInc_pclk]
  have hAhsync : A.2.2.hsync = s.hsync := by
    rw [hAdef, serviceA_hsync b (TIA.videoCyclesInc s) h1, videoCyclesInc_hsync]
  have hAlatch : A.2.2.hmoveLatch = s.hmoveLatch := by
    rw [hAdef, serviceA_hmoveLatch, videoCyclesInc_hmoveLatch]
  have hAfires : A.2.2.delay.any
      (fun e => (e.1 - 1 == 0) && (e.2 == DelayTarget.hmoveLatchOn)) = false := by
    rw [hAdef]
    exact serviceA_delay_anyfalse _ b _ hB rfl rfl (fun r v => rfl)
  have hAnoRHB : A.2.2.delay.any (fun e => e.2 == DelayTarget.resetHBlank) = false := by
    rw [hAdef]
    refine serviceA_delay_anyfalse _ b _ ?_ rfl rfl (fun r v => rfl)
    simpa [noResetHBlank] using hA
  have hYpclk : Y.pclk = PhaseClock.tick s.pclk := by
    rw [hYdef, delayTick_pclk, pclkTickStage_pclk, hApclk]
  have hYhsync : Y.hsync = s.hsync := by
    rw [hYdef, delayTick_hsync, pclkTickStage_hsync, hAhsync]
  have hYlatch : Y.hmoveLatch = s.hmoveLatch := by
    rw [hYdef, delayTick_hmoveLatch]
    have h2 : firesHmoveLatch (TIA.pclkTickStage A.2.2).delay = false := by
      rw [show (TIA.pclkTickStage A.2.2).delay = A.2.2.delay from rfl]
      exact hAfires
    rw [h2]
    rw [show (TIA.pclkTickStage A.2.2).hmoveLatch = A.2.2.hmoveLatch from rfl, hAlatch]
    simp
  have hYnoRHB : Y.delay.any (fun e => e.2 == DelayTarget.resetHBlank) = false := by
    rw [hYdef]
    refine delayTick_delay_any _ _ ?_
    rw [show (TIA.pclkTickStage A.2.2).delay = A.2.2.delay from rfl]
    exact hAnoRHB
  have hdelay : (TIA.Step tv b s).1.delay
      = (TIA.serviceB A.1 A.2.1 (TIA.hsyncSection Y)).2.delay := by
    rw [step_1_delay, stepPreSignal_delay, stepToVideo_2_2, hmoveCtStage_delay,
      spriteTickStage_delay]
  constructor
  · intro hh
    cases hl : s.hmoveLatch
    · have hsched : (TIA.hsyncSection Y).delay
          = DelayQueue.schedule hsyncDelay DelayTarget.resetHBlank Y.delay := by
        refine hsyncSection_decode16_sched Y ?_ ?_ ?_
        · rw [hYpclk]; exact hp
        · rw [hYhsync]; exact hh
        · rw [hYlatch]; exact hl
      have hmem : (hsyncDelay, DelayTarget.resetHBlank)
          ∈ (TIA.serviceB A.1 A.2.1 (TIA.hsyncSection Y)).2.delay := by
        refine serviceB_delay_mem _ _ _ _ _ ?_ rfl
        rw [hsched]
        exact schedule_mem_self hsyncDelay DelayTarget.resetHBlank Y.delay
      rw [hdelay]
      exact iff_of_true hmem rfl
    · have hskip : (TIA.hsyncSection Y).delay = Y.delay := by
        refine hsyncSection_decode16_skip Y ?_ ?_ ?_
        · rw [hYpclk]; exact hp
        · rw [hYhsync]; exact hh
        · rw [hYlatch]; exact hl
      have hnone : (TIA.serviceB A.1 A.2.1 (TIA.hsyncSection Y)).2.delay.any
          (fun e => e.2 == DelayTarget.resetHBlank) = false := by
        refine serviceB_delay_anyfalse _ _ _ _ ?_ (fun n => rfl)
        rw [hskip]
        exact hYnoRHB
      rw [hdelay]
      refine iff_of_false ?_ (by simp [hl])
      intro hmem
      have : (TIA.serviceB A.1 A.2.1 (TIA.hsyncSection Y)).2.delay.any
          (fun e => e.2 == DelayTarget.resetHBlank) = true :=
        List.any_eq_true.2 ⟨_, hmem, rfl⟩
      rw [hnone] at this
      exact Bool.false_ne_true this
  · intro hh
    cases hl : s.hmoveLatch
    · have hskip : (TIA.hsyncSection Y).delay = Y.delay := by
        refine hsyncSection_decode18_skip Y ?_ ?_ ?_
        · rw [hYpclk]; exact hp
        · rw [hYhsync]; exact hh
        · rw [hYlatch]; exact hl
      have hnone : (TIA.serviceB A.1 A.2.1 (TIA.hsyncSection Y)).2.delay.any
          (fun e => e.2 == DelayTarget.resetHBlank) = false := by
        refine serviceB_delay_anyfalse _ _ _ _ ?_ (fun n => rfl)
        rw [hskip]
        exact hYnoRHB
      rw [hdelay]
      refine iff_of_false ?_ (by simp [hl])
      intro hmem
      have : (TIA.serviceB A.1 A.2.1 (TIA.hsyncSection Y)).2.delay.any
          (fun e => e.2 == DelayTarget.resetHBlank) = true :=
        List.any_eq_true.2 ⟨_, hmem, rfl⟩
      rw [hnone] at this
      exact Bool.false_ne_true this
    · have hsched : (TIA.hsyncSection Y).delay
          = DelayQueue.schedule hsyncDelay DelayTarget.resetHBlank Y.delay := by
        refine hsyncSection_decode18_sched Y ?_ ?_ ?_
        · rw [hYpclk]; exact hp
        · rw [hYhsync]; exact hh
        · rw [hYlatch]; exact hl
      have hmem : (hsyncDelay, DelayTarget.resetHBlank)
          ∈ (TIA.serviceB A.1 A.2.1 (TIA.hsyncSection Y)).2.delay := by
        refine serviceB_delay_mem _ _ _ _ _ ?_ rfl
        rw [hsched]
        exact schedule_mem_self hsyncDelay DelayTarget.resetHBlank Y.delay
      rw [hdelay]
      exact iff_of_true hmem rfl

/-- Witness for C5: at a concrete state reaching the count-16 decode
with hmoveLatch clear, the HBlank-off event is scheduled. -/
theorem tia_hblank_decode_witness :
    ((hsyncDelay, DelayTarget.resetHBlank)
        ∈ (TIA.Step (fun _ => none) false tiaC5).1.delay)
      ↔ tiaC5.hmoveLatch = false :=
  (tia_hblank_decode (fun _ => none) false tiaC5 rfl rfl rfl rfl).1 rfl

end Gopher2600

namespace Gopher2600

/-- C9: the hand controllers' `Handle(KeyboardDown, v)` accepts the
runes '1'..'9', '*' and '#' (recording the pressed key) and returns
`BadInputEventType` for non-rune values — but it also rejects the rune
'0', which the claim (and the keypad hardware, and the code's own
error hint "numeric rune or '*' or '#'") says must be accepted: the
code omits '0' from its comparison chain. -/
theorem keypad_handle_zero_bug :
    HandController.Handle NewHandController0 Event.KeyboardDown (EventValue.rn '0')
      = Except.error Errno.BadInputEventType ∧
    HandController.Handle NewHandController1 Event.KeyboardDown (EventValue.rn '0')
      = Except.error Errno.BadInputEventType ∧
    ([ '1', '2', '3', '4', '5', '6', '7', '8', '9', '*', '#'].map (fun c =>
        HandController.Handle NewHandController0 Event.KeyboardDown (EventValue.rn c))
      = [ '1', '2', '3', '4', '5', '6', '7', '8', '9', '*', '#'].map (fun c =>
        Except.ok {NewHandController0 with keyboardKey := c})) ∧
    HandController.Handle NewHandController0 Event.KeyboardDown (EventValue.b true)
      = Except.error Errno.BadInputEventType ∧
    HandController.Handle NewHandController0 Event.KeyboardDown EventValue.nothing
      = Except.error Errno.BadInputEventType := by
  exact ⟨rfl, rfl, rfl, rfl, rfl⟩

end Gopher2600

namespace Gopher2600

/-! Laws of the patcher loops. -/

lemma applyLines_skip (line : List Char) (rest : List (List Char)) (p : Bool) (c : Cartridge)
    (h : skippedLine line = true) :
    applyLines (line :: rest) p c = applyLines rest p c := by
  cases line with
  | nil => rfl
  | cons c0 cs =>
      rw [applyLines]
      simp only [List.isEmpty]
      by_cases hc : (c0 == commentLeader || goIsSpace c0) = true
      · simp [hc]
      · by_cases hlen : ((splitOnChar pokeLineSeparator (c0 :: cs)).length == 2) = true
        · by_cases hpi : (ParseInt16 (goTrimSpace
              ((splitOnChar pokeLineSeparator (c0 :: cs))[0]?.getD []))).isNone = true
          · have hnone := Option.isNone_iff_eq_none.1 hpi
            simp [hc, hlen, hnone]
          · exfalso
            have hc2 : (c0 == commentLeader || goIsSpace c0) = false := by simpa using hc
            have hpi2 : ¬ ParseInt16 (goTrimSpace
                ((splitOnChar pokeLineSeparator (c0 :: cs))[0]?.getD [])) = none := by
              simpa using hpi
            rw [skippedLine] at h
            simp [hc2, hlen, hpi2] at h
        · have hlen2 : ((splitOnChar pokeLineSeparator (c0 :: cs)).length == 2) = false := by
            simpa using hlen
          simp [hc, hlen2]

lemma applyValues_count_mono (ts : List (List Char)) : ∀ (addr : Int) (p : Bool) (c : Cartridge),
    c.appliedCount ≤ (applyValues ts addr p c).2.2.1.appliedCount := by
  induction ts with
  | nil => intro addr p c; exact Nat.le_refl _
  | cons t ts ih =>
      intro addr p c
      rw [applyValues]
      by_cases he : (goTrimSpace t).isEmpty = true
      · rw [if_pos he]
        exact ih addr p c
      · rw [if_neg he]
        rcases hp : ParseUint8 (goTrimSpace t) with _ | bv
        · exact ih addr p c
        · dsimp only
          rcases hpatch : Cartridge.Patch c (addr.emod 65536).toNat bv with e | c2
          · exact Nat.le_refl _
          · dsimp only
            have hc2 : c.appliedCount + 1 = c2.appliedCount := by
              unfold Cartridge.Patch at hpatch
              split at hpatch
              · cases hpatch
                rfl
              · cases hpatch
            calc c.appliedCount ≤ c2.appliedCount := by omega
              _ ≤ (applyValues ts (addr + 1) true c2).2.2.1.appliedCount := ih _ _ _

lemma applyValues_patched_iff (ts : List (List Char)) :
    ∀ (addr : Int) (p : Bool) (c : Cartridge),
    ((applyValues ts addr p c).2.1 = true
      ↔ (p = true ∨ c.appliedCount < (applyValues ts addr p c).2.2.1.appliedCount)) := by
  induction ts with
  | nil =>
      intro addr p c
      simp [applyValues]
  | cons t ts ih =>
      intro addr p c
      rw [applyValues]
      by_cases he : (goTrimSpace t).isEmpty = true
      · rw [if_pos he]
        exact ih addr p c
      · rw [if_neg he]
        rcases hp : ParseUint8 (goTrimSpace t) with _ | bv
        · exact ih addr p c
        · dsimp only
          rcases hpatch : Cartridge.Patch c (addr.emod 65536).toNat bv with e | c2
          · simp
          · dsimp only
            have hc2 : c.appliedCount + 1 = c2.appliedCount := by
              unfold Cartridge.Patch at hpatch
              split at hpatch
              · cases hpatch
                rfl
              · cases hpatch
            have hmono := applyValues_count_mono ts (addr + 1) true c2
            have hlt : c.appliedCount
                < (applyValues ts (addr + 1) true c2).2.2.1.appliedCount := by omega
            have h1 : (applyValues ts (addr + 1) true c2).2.1 = true :=
              (ih (addr + 1) true c2).2 (Or.inl rfl)
            exact iff_of_true h1 (Or.inr hlt)

lemma applyLines_count_mono (ls : List (List Char)) : ∀ (p : Bool) (c : Cartridge),
    c.appliedCount ≤ (applyLines ls p c).2.1.appliedCount := by
  induction ls with
  | nil => intro p c; exact Nat.le_refl _
  | cons line rest ih =>
      intro p c
      rw [applyLines]
      dsimp only
      split
      · exact ih p c
      · split
        · exact ih p c
        · split
          · exact ih p c
          · split
            · exact ih p c
            · split
              · exact ih p c
              · rename_i address hParse
                rcases hEq : applyValues (splitOnChar (Char.ofNat 32)
                    (goTrimSpace ((splitOnChar pokeLineSeparator line)[1]?.getD [])))
                    address p c
                  with ⟨fst, p2, c2, r⟩
                have hm := applyValues_count_mono (splitOnChar (Char.ofNat 32)
                    (goTrimSpace ((splitOnChar pokeLineSeparator line)[1]?.getD [])))
                    address p c
                rw [hEq] at hm
                simp only at hm
                cases r with
                | none =>
                    exact Nat.le_trans hm (ih p2 c2)
                | some e =>
                    exact hm

lemma applyLines_patched_iff (ls : List (List Char)) : ∀ (p : Bool) (c : Cartridge),
    ((applyLines ls p c).1 = true
      ↔ (p = true ∨ c.appliedCount < (applyLines ls p c).2.1.appliedCount)) := by
  induction ls with
  | nil =>
      intro p c
      simp [applyLines]
  | cons line rest ih =>
      intro p c
      rw [applyLines]
      dsimp only
      split
      · exact ih p c
      · split
        · exact ih p c
        · split
          · exact ih p c
          · split
            · exact ih p c
            · split
              · exact ih p c
              · rename_i address hParse
                rcases hEq : applyValues (splitOnChar (Char.ofNat 32)
                    (goTrimSpace ((splitOnChar pokeLineSeparator line)[1]?.getD [])))
                    address p c
                  with ⟨fst, p2, c2, r⟩
                have hv := applyValues_patched_iff (splitOnChar (Char.ofNat 32)
                    (goTrimSpace ((splitOnChar pokeLineSeparator line)[1]?.getD [])))
                    address p c
                rw [hEq] at hv
                simp only at hv
                have hm1 := applyValues_count_mono (splitOnChar (Char.ofNat 32)
                    (goTrimSpace ((splitOnChar pokeLineSeparator line)[1]?.getD [])))
                    address p c
                rw [hEq] at hm1
                simp only at hm1
                cases r with
                | none =>
                    dsimp only
                    have hm2 := applyLines_count_mono rest p2 c2
                    rw [ih p2 c2, hv]
                    constructor
                    · rintro ((h | h) | h)
                      · exact Or.inl h
                      · exact Or.inr (Nat.lt_of_lt_of_le h hm2)
                      · exact Or.inr (Nat.lt_of_le_of_lt hm1 h)
                    · rintro (h | h)
                      · exact Or.inl (Or.inl h)
                      · rcases Nat.lt_or_ge c.appliedCount c2.appliedCount with h2 | h2
                        · exact Or.inl (Or.inr h2)
                        · exact Or.inr (by omega)
                | some e =>
                    dsimp only
                    exact hv

lemma applyValues_writeSeq (ts : List (List Char)) :
    ∀ (addr : Int) (p : Bool) (c : Cartridge),
    0 ≤ addr →
    addr.toNat + (parsedValues ts).length ≤ c.data.length →
    addr.toNat + (parsedValues ts).length ≤ 65536 →
    applyValues ts addr p c
      = (addr + (parsedValues ts).length, (p || !(parsedValues ts).isEmpty),
         writeSeq c addr.toNat (parsedValues ts), none) := by
  induction ts with
  | nil =>
      intro addr p c h1 h2 h3
      simp [applyValues, parsedValues, writeSeq]
  | cons t ts ih =>
      intro addr p c h1 h2 h3
      rw [applyValues]
      by_cases he : (goTrimSpace t).isEmpty = true
      · rw [if_pos he]
        have he2 : goTrimSpace t = [] := by simpa using he
        have hpv : parsedValues (t :: ts) = parsedValues ts := by
          simp [parsedValues, List.filterMap_cons, he2]
        rw [hpv] at h2 h3 ⊢
        exact ih addr p c h1 h2 h3
      · rw [if_neg he]
        have he2 : ¬ goTrimSpace t = [] := by simpa using he
        rcases hp : ParseUint8 (goTrimSpace t) with _ | bv
        · dsimp only
          have hpv : parsedValues (t :: ts) = parsedValues ts := by
            simp [parsedValues, List.filterMap_cons, he2, hp]
          rw [hpv] at h2 h3 ⊢
          exact ih addr p c h1 h2 h3
        · dsimp only
          have hpv : parsedValues (t :: ts) = bv :: parsedValues ts := by
            simp [parsedValues, List.filterMap_cons, he2, hp]
          rw [hpv] at h2 h3 ⊢
          have hlt : addr < 65536 := by
            simp only [List.length_cons] at h3
            omega
          have hemod : addr.emod 65536 = addr := Int.emod_eq_of_lt h1 hlt
          rw [hemod]
          have hoff : addr.toNat < c.data.length := by
            simp only [List.length_cons] at h2
            omega
          have hPatch : Cartridge.Patch c addr.toNat bv
              = Except.ok ⟨c.data.set addr.toNat (bv % 256), c.appliedCount + 1⟩ := by
            unfold Cartridge.Patch
            rw [if_pos hoff]
          rw [hPatch]
          dsimp only
          have h1' : (0 : Int) ≤ addr + 1 := by omega
          have h2' : (addr + 1).toNat + (parsedValues ts).length
              ≤ (Cartridge.mk (c.data.set addr.toNat (bv % 256)) (c.appliedCount + 1)).data.length := by
            simp only [List.length_set, List.length_cons] at h2 ⊢
            omega
          have h3' : (addr + 1).toNat + (parsedValues ts).length ≤ 65536 := by
            simp only [List.length_cons] at h3
            omega
          rw [ih (addr + 1) true ⟨c.data.set addr.toNat (bv % 256), c.appliedCount + 1⟩ h1' h2' h3']
          have htn : (addr + 1).toNat = addr.toNat + 1 := by omega
          rw [writeSeq, htn]
          simp only [Prod.mk.injEq, List.length_cons]
          exact ⟨by push_cast; ring, by simp⟩

/-- C8 counterexample: on the patch line `10: 42 zz 43` the value `zz`
does not parse, so the claim says the whole line is malformed and must
be skipped with no bytes applied and result `false`.  The patcher
instead skips only the bad value: it writes 0x42 at offset 0x10 and
0x43 at the *next* offset 0x11, and reports `true` with no error. -/
theorem patch_value_skip_counterexample :
    ParseUint8 ('z' :: ['z']) = none ∧
    CartridgeMemory "10: 42 zz 43" cart32
      = (true, ⟨((List.replicate 32 0).set 16 66).set 17 67, 2⟩, none) := by
  exact ⟨rfl, rfl⟩

/-- C8 (amended): the patcher skips blank lines, comment lines, lines
led by whitespace, lines without a single colon and lines whose address
does not parse; within a line's value list each empty or unparseable
value field is skipped individually, and the parsed byte values are
written to consecutive cartridge offsets starting at ADDR (the address
advancing only on success), in bounds yielding no error; the boolean
result is true iff at least one byte was applied. -/
theorem patch_cartridgeMemory_amended :
    (∀ (line : List Char) (rest : List (List Char)) (p : Bool) (c : Cartridge),
        skippedLine line = true →
        applyLines (line :: rest) p c = applyLines rest p c) ∧
    (∀ (ts : List (List Char)) (addr : Int) (p : Bool) (c : Cartridge),
        0 ≤ addr →
        addr.toNat + (parsedValues ts).length ≤ c.data.length →
        addr.toNat + (parsedValues ts).length ≤ 65536 →
        applyValues ts addr p c
          = (addr + (parsedValues ts).length, (p || !(parsedValues ts).isEmpty),
             writeSeq c addr.toNat (parsedValues ts), none)) ∧
    (∀ (content : String) (cart : Cartridge),
        ((CartridgeMemory content cart).1 = true
          ↔ cart.appliedCount < (CartridgeMemory content cart).2.1.appliedCount)) := by
  refine ⟨fun line rest p c h => applyLines_skip line rest p c h,
    fun ts addr p c h1 h2 h3 => applyValues_writeSeq ts addr p c h1 h2 h3,
    fun content cart => ?_⟩
  have h := applyLines_patched_iff (splitOnChar (Char.ofNat 10) content.toList) false cart
  simpa [CartridgeMemory] using h

/-- Witness for C8: a comment line is skipped, and the one-value list
`42` at address 0x10 writes one byte there. -/
theorem patch_cartridgeMemory_amended_witness :
    applyLines ([Char.ofNat 45, Char.ofNat 120] :: []) false cart32
      = applyLines [] false cart32 ∧
    applyValues [['4', '2']] 16 false cart32
      = (16 + ((parsedValues [['4', '2']]).length : Int),
         (false || !(parsedValues [['4', '2']]).isEmpty),
         writeSeq cart32 (16 : Int).toNat (parsedValues [['4', '2']]), none) :=
  ⟨patch_cartridgeMemory_amended.1 [Char.ofNat 45, Char.ofNat 120] [] false cart32 (by decide),
   patch_cartridgeMemory_amended.2.1 [['4', '2']] 16 false cart32
     (by decide) (by decide) (by decide)⟩

end Gopher2600
